import Mathlib

/-!
Verification of the candive protocol stack (DiveCAN / ISO-TP / UDS / DIDs).

Shallow embedding of the Rust sources:
  * `src/diag/isotp.rs`   — ISO-TP segmenter (`IsoTpTx`) and reassembler (`IsoTpRx`)
  * `src/divecan.rs`      — DiveCAN frame and typed `Msg` codec
  * `src/diag/did.rs`     — `SoloConfigDid` bit packing
  * `src/diag/solo.rs`    — `LogDecryptor` (DES + LCG keystream)
  * `src/diag/settings.rs`— `UserSettingPayload` codec
  * `crates/candive/src/uds/client.rs` + `src/uds/uds.rs`
                          — UDS PDU codecs and client sessions

Machine integers are modelled as `Nat`; wrap-around and casts are made
explicit with `% 2^w` where the source can overflow.  Fixed-size byte
arrays (`[u8; N]`) are modelled as `List Nat`; the reassembler's fixed
1024-byte buffer is modelled by the written prefix `acc` (the source only
ever reads `buf[..used]`) together with the capacity constant `bufCap`.
-/

namespace Candive

/-! ## ISO-TP (`src/diag/isotp.rs`) -/

namespace IsoTp

/-- `IsoTpFrame { len: u8, data: [u8; 8] }`. -/
structure IsoTpFrame where
  len : Nat
  data : List Nat
deriving Repr, DecidableEq

/-- TX segmenter state tags. -/
inductive TxState where
  | NotStarted
  | SingleDone
  | FirstSent
  | Done
deriving Repr, DecidableEq

/-- `IsoTpTx` segmenter state. -/
structure IsoTpTx where
  data : List Nat
  offset : Nat
  state : TxState
  sn : Nat
deriving Repr, DecidableEq

def IsoTpTx.new (d : List Nat) : IsoTpTx :=
  { data := d, offset := 0, state := .NotStarted, sn := 0 }

/-- `IsoTpPciType`. -/
inductive IsoTpPciType where
  | Single
  | First
  | Consecutive
  | FlowControl
deriving Repr, DecidableEq

/-- `IsoTpPciType::from_u8`, dispatching on the high nibble of byte 0. -/
def IsoTpPciType.fromU8 (byte0 : Nat) : Option IsoTpPciType :=
  match byte0 >>> 4 with
  | 0 => some .Single
  | 1 => some .First
  | 2 => some .Consecutive
  | 3 => some .FlowControl
  | _ => none

/-- One step of `impl Iterator for IsoTpTx` (`next`).  Returns the emitted
frame together with the successor state, or `none` when the iterator is
exhausted.  (The source also flips `state` to `Done` on the exhausted
path before returning `None`; that mutation is unobservable in the frame
sequence and is dropped here.) -/
def IsoTpTx.next (s : IsoTpTx) : Option (IsoTpFrame × IsoTpTx) :=
  match s.state with
  | .Done | .SingleDone => none
  | .NotStarted =>
    let totalLen := s.data.length
    if totalLen ≤ 7 then
      -- Single Frame: pci = length, data after byte 0, zero padded.
      some (⟨1 + totalLen, totalLen :: (s.data ++ List.replicate (7 - totalLen) 0)⟩,
            { s with state := .SingleDone })
    else
      -- First Frame: 12-bit total length, first 6 data bytes.
      let t16 := totalLen % 65536
      let hi := (t16 >>> 8) &&& 0xF
      let lo := t16 &&& 0xFF
      let firstChunk := min 6 totalLen
      some (⟨2 + firstChunk,
             (0x10 ||| hi) :: lo ::
               (s.data.take firstChunk ++ List.replicate (6 - firstChunk) 0)⟩,
            { s with offset := firstChunk, state := .FirstSent, sn := 1 })
  | .FirstSent =>
    if h : s.data.length ≤ s.offset then none
    else
      let remaining := s.data.length - s.offset
      let chunk := min remaining 7
      some (⟨1 + chunk,
             (0x20 ||| (s.sn &&& 0xF)) ::
               ((s.data.drop s.offset).take chunk ++ List.replicate (7 - chunk) 0)⟩,
            { s with offset := s.offset + chunk,
                     sn := (s.sn + 1) &&& 0xF,
                     state := if s.data.length ≤ s.offset + chunk then .Done
                              else .FirstSent })

/-- Termination measure for the TX iterator. -/
def txMeasure (s : IsoTpTx) : Nat :=
  match s.state with
  | .NotStarted => s.data.length + 2
  | .FirstSent => s.data.length - s.offset + 1
  | .SingleDone | .Done => 0

/-- The full frame sequence produced by repeatedly calling `next`. -/
def txFrames (s : IsoTpTx) : List IsoTpFrame :=
  match h : s.next with
  | none => []
  | some (f, t) => f :: txFrames t
termination_by txMeasure s
decreasing_by
  rcases s with ⟨d, o, st, sn⟩
  cases st
  case NotStarted =>
    simp only [IsoTpTx.next] at h
    by_cases h7 : d.length ≤ 7
    · simp only [h7, if_true, Option.some.injEq, Prod.mk.injEq] at h
      obtain ⟨-, ht⟩ := h
      subst ht
      simp [txMeasure]
    · simp only [h7, if_false, Option.some.injEq, Prod.mk.injEq] at h
      obtain ⟨-, ht⟩ := h
      subst ht
      simp only [txMeasure]
      omega
  case SingleDone => simp [IsoTpTx.next] at h
  case FirstSent =>
    simp only [IsoTpTx.next] at h
    split at h
    · simp at h
    · rename_i hlt
      simp only [Option.some.injEq, Prod.mk.injEq] at h
      obtain ⟨-, ht⟩ := h
      subst ht
      have hc1 : 0 < min (d.length - o) 7 := by
        rw [Nat.lt_min]
        omega
      have hc2 : min (d.length - o) 7 ≤ d.length - o := Nat.min_le_left _ _
      by_cases hcond : d.length ≤ o + min (d.length - o) 7
      · simp [txMeasure, hcond]
      · simp only [txMeasure, hcond, if_false]
        omega
  case Done => simp [IsoTpTx.next] at h

/-- RX reassembler state tags. -/
inductive RxState where
  | Idle
  | Receiving
deriving Repr, DecidableEq

/-- `IsoTpRxError`. -/
inductive IsoTpRxError where
  | UnknownPciType
  | UnexpectedFrameType (expected : String) (got : IsoTpPciType)
  | LengthMismatch
  | SequenceError (expected : Nat) (got : Nat)
  | Overflow
deriving Repr, DecidableEq

/-- `IsoTpRxEvent`. -/
inductive IsoTpRxEvent where
  | None
  | FlowControlRequired
  | Completed (used : Nat)
deriving Repr, DecidableEq

/-- The reassembler's fixed buffer capacity (`buf: [u8; 1024]`). -/
def bufCap : Nat := 1024

/-- `IsoTpRx` reassembler state.  `acc` models `buf[..used]` (so
`used = acc.length`); the untouched remainder of the fixed array is never
read by the source. -/
structure IsoTpRx where
  state : RxState
  expectedLen : Option Nat
  acc : List Nat
  nextSn : Nat
deriving Repr, DecidableEq

def IsoTpRx.new : IsoTpRx :=
  { state := .Idle, expectedLen := none, acc := [], nextSn := 0 }

/-- `IsoTpRx::reset`. -/
def IsoTpRx.reset (_s : IsoTpRx) : IsoTpRx :=
  { state := .Idle, expectedLen := none, acc := [], nextSn := 0 }

/-- `IsoTpRx::payload` (`&buf[..used]`). -/
def IsoTpRx.payload (s : IsoTpRx) : List Nat := s.acc

/-- `IsoTpRx::handle_single`. -/
def IsoTpRx.handleSingle (s : IsoTpRx) (frame : IsoTpFrame) :
    IsoTpRx × Except IsoTpRxError IsoTpRxEvent :=
  let sfLen := (frame.data.getD 0 0) &&& 0xF
  if sfLen = 0 ∨ sfLen > 7 then (s, .error .LengthMismatch)
  else if frame.len ≠ 1 + sfLen then (s, .error .LengthMismatch)
  else if sfLen > bufCap then (s, .error .Overflow)
  else
    ({ state := .Idle, expectedLen := none,
       acc := (frame.data.drop 1).take sfLen, nextSn := 0 },
     .ok (.Completed sfLen))

/-- `IsoTpRx::handle_first`.  Returns the new state and `Ok(Some used)`
when the first frame already carried the whole message. -/
def IsoTpRx.handleFirst (s : IsoTpRx) (frame : IsoTpFrame) :
    IsoTpRx × Except IsoTpRxError (Option Nat) :=
  if frame.len < 2 then (s, .error .LengthMismatch)
  else
    let hi := (frame.data.getD 0 0) &&& 0xF
    let lo := frame.data.getD 1 0
    let totalLen := (hi <<< 8) ||| lo
    if totalLen = 0 then (s, .error .LengthMismatch)
    else if totalLen > bufCap then (s, .error .Overflow)
    else
      let available := frame.len - 2
      let copyLen := min available (min totalLen 6)
      let acc := (frame.data.drop 2).take copyLen
      if copyLen = totalLen then
        ({ state := .Idle, expectedLen := none, acc := acc, nextSn := 1 },
         .ok (some copyLen))
      else
        ({ state := .Receiving, expectedLen := some totalLen, acc := acc, nextSn := 1 },
         .ok none)

/-- `IsoTpRx::handle_consecutive`. -/
def IsoTpRx.handleConsecutive (s : IsoTpRx) (frame : IsoTpFrame) :
    IsoTpRx × Except IsoTpRxError IsoTpRxEvent :=
  if s.state ≠ RxState.Receiving then
    (s, .error (.UnexpectedFrameType "First Frame before ConsecutiveFrame" .Consecutive))
  else
    match s.expectedLen with
    | none =>
      (s, .error (.UnexpectedFrameType "First Frame before ConsecutiveFrame" .Consecutive))
    | some expectedLen =>
      let sn := (frame.data.getD 0 0) &&& 0xF
      if sn ≠ s.nextSn then (s, .error (.SequenceError s.nextSn sn))
      else
        let payloadLen := frame.len - 1
        if s.acc.length ≥ expectedLen then (s, .error .Overflow)
        else
          let remaining := expectedLen - s.acc.length
          let copyLen := min payloadLen remaining
          if s.acc.length + copyLen > bufCap then (s, .error .Overflow)
          else
            let acc' := s.acc ++ (frame.data.drop 1).take copyLen
            let s' : IsoTpRx :=
              { s with acc := acc', nextSn := (s.nextSn + 1) &&& 0xF }
            if acc'.length > expectedLen then (s', .error .Overflow)
            else if acc'.length = expectedLen then
              ({ s' with state := .Idle, expectedLen := none },
               .ok (.Completed acc'.length))
            else (s', .ok .None)

/-- `IsoTpRx::on_frame`. -/
def IsoTpRx.onFrame (s : IsoTpRx) (frame : IsoTpFrame) :
    IsoTpRx × Except IsoTpRxError IsoTpRxEvent :=
  if frame.len = 0 ∨ frame.len > 8 then (s, .error .LengthMismatch)
  else
    match IsoTpPciType.fromU8 (frame.data.getD 0 0) with
    | none => (s, .error .UnknownPciType)
    | some .Single => s.handleSingle frame
    | some .First =>
      match s.handleFirst frame with
      | (s', .ok _) => (s', .ok .FlowControlRequired)
      | (s', .error e) => (s', .error e)
    | some .Consecutive => s.handleConsecutive frame
    | some .FlowControl =>
      (s, .error (.UnexpectedFrameType "Single/First/Consecutive" .FlowControl))

/-- Feed a list of frames one by one, collecting the per-frame results. -/
def feedTrace (s : IsoTpRx) : List IsoTpFrame →
    IsoTpRx × List (Except IsoTpRxError IsoTpRxEvent)
  | [] => (s, [])
  | f :: fs =>
    let r := s.onFrame f
    let rest := feedTrace r.1 fs
    (rest.1, r.2 :: rest.2)

/-- Reassembler states reachable from `IsoTpRx::new()` by any sequence of
`on_frame` (with 8-byte frame data, as `[u8; 8]` guarantees) and `reset`
calls. -/
inductive Reachable : IsoTpRx → Prop where
  | new : Reachable IsoTpRx.new
  | reset {s : IsoTpRx} : Reachable s → Reachable s.reset
  | step {s : IsoTpRx} (f : IsoTpFrame) (hf : f.data.length = 8) :
      Reachable s → Reachable (s.onFrame f).1

/-- The reassembler invariant: `next_sn ∈ 0..=15`, and in the `Receiving`
state the pending length is set with `used ≤ expected_len`. -/
def Inv (s : IsoTpRx) : Prop :=
  s.nextSn ≤ 15 ∧
  (s.state = RxState.Receiving →
    ∃ L, s.expectedLen = some L ∧ s.acc.length ≤ L)

end IsoTp

/-! ## DiveCAN message codec (`src/divecan.rs`)

The unit newtypes (`PpO2Deci`, `Millibar`, `Decivolt`, ...) live in the
repository's `units` module, which is not part of the sources here.
Modelled from the spec: §2 describes them as transparent newtype wrappers
over `u8`/`u16` raw values with explicit raw accessors, so they are
modelled directly by their raw `Nat` value. -/

namespace Divecan

/-- Big-endian high byte of a `u16` (`to_be_bytes()[0]`). -/
def hi8 (x : Nat) : Nat := x / 256 % 256

/-- Big-endian low byte of a `u16` (`to_be_bytes()[1]`). -/
def lo8 (x : Nat) : Nat := x % 256

/-- `u32::to_be_bytes`. -/
def be32 (x : Nat) : List Nat :=
  [x / 2 ^ 24 % 256, x / 2 ^ 16 % 256, x / 2 ^ 8 % 256, x % 256]

/-- `DiveCanFrame { kind, dlc, data: [u8; 8] }`. -/
structure DiveCanFrame where
  kind : Nat
  dlc : Nat
  data : List Nat
deriving Repr, DecidableEq

/-- `DecodeError`. -/
inductive DecodeError where
  | UnknownKind (kind : Nat)
  | DlcMismatch
deriving Repr, DecidableEq

/-- `ShutdownReason`. -/
inductive ShutdownReason where
  | UserInitiated
  | Timeout
  | Unknown (v : Nat)
deriving Repr, DecidableEq

def ShutdownReason.fromU8 (v : Nat) : ShutdownReason :=
  if v = 0x00 then .UserInitiated
  else if v = 0x01 then .Timeout
  else .Unknown v

def ShutdownReason.toU8 : ShutdownReason → Nat
  | .UserInitiated => 0x00
  | .Timeout => 0x01
  | .Unknown v => v

/-- `Consensus`. -/
inductive Consensus where
  | NotCalibrated
  | NoActiveCells
  | PpO2 (v : Nat)
deriving Repr, DecidableEq

def Consensus.fromU8 (v : Nat) : Consensus :=
  if v = 0xff then .NotCalibrated
  else if v = 0xfe then .NoActiveCells
  else .PpO2 v

def Consensus.toU8 : Consensus → Nat
  | .NotCalibrated => 0xff
  | .NoActiveCells => 0xfe
  | .PpO2 v => v

/-- `CalStatusCode`. -/
inductive CalStatusCode where
  | Success
  | Ack
  | Rejected
  | LowExtBatt
  | SolenoidError
  | Fo2RangeError
  | PressureError
  | Unknown (v : Nat)
deriving Repr, DecidableEq

def CalStatusCode.fromByte (b : Nat) : CalStatusCode :=
  if b = 0x01 then .Success
  else if b = 0x05 then .Ack
  else if b = 0x08 then .Rejected
  else if b = 0x10 then .LowExtBatt
  else if b = 0x18 then .SolenoidError
  else if b = 0x20 then .Fo2RangeError
  else if b = 0x28 then .PressureError
  else .Unknown b

def CalStatusCode.toByte : CalStatusCode → Nat
  | .Success => 0x01
  | .Ack => 0x05
  | .Rejected => 0x08
  | .LowExtBatt => 0x10
  | .SolenoidError => 0x18
  | .Fo2RangeError => 0x20
  | .PressureError => 0x28
  | .Unknown b => b

/-- `VoltageAlert`. -/
inductive VoltageAlert where
  | UnderVoltage
  | Clear
  | OverVoltage
deriving Repr, DecidableEq

/-- `VoltageAlert::from_2bit_opt`. -/
def VoltageAlert.from2bitOpt (v : Nat) : Option VoltageAlert :=
  match v &&& 0b11 with
  | 0 => none
  | 1 => some .UnderVoltage
  | 2 => some .Clear
  | _ => some .OverVoltage

/-- `VoltageAlert::to_2bit_opt`. -/
def VoltageAlert.to2bitOpt : Option VoltageAlert → Nat
  | none => 0b00
  | some .UnderVoltage => 0b01
  | some .Clear => 0b10
  | some .OverVoltage => 0b11

/-- `CurrentAlert`. -/
inductive CurrentAlert where
  | UnderCurrent
  | Clear
  | OverCurrent
deriving Repr, DecidableEq

/-- `CurrentAlert::from_2bit_opt`. -/
def CurrentAlert.from2bitOpt (v : Nat) : Option CurrentAlert :=
  match v &&& 0b11 with
  | 0 => none
  | 1 => some .UnderCurrent
  | 2 => some .Clear
  | _ => some .OverCurrent

/-- `CurrentAlert::to_2bit_opt`. -/
def CurrentAlert.to2bitOpt : Option CurrentAlert → Nat
  | none => 0b00
  | some .UnderCurrent => 0b01
  | some .Clear => 0b10
  | some .OverCurrent => 0b11

/-- `CellsActive::from_u8` (only the lower 3 bits are kept).  The struct
itself is modelled by its wrapped `u8` value (private field, always `< 8`
by construction; that invariant lives in `Msg.WF`). -/
def cellsActiveFromU8 (v : Nat) : Nat := v &&& 0b111

/-- `Msg`, the DiveCAN tagged union.  The `Alert` payload struct
(private fields `unknown`, `code`, `details[..details_len]`) is inlined
as constructor arguments, with `details` the logical detail bytes. -/
inductive Msg where
  | Id (manufacturer unused version : Nat)
  | DeviceName (name : List Nat)
  | Alert (unknown code : Nat) (details : List Nat)
  | ShutdownInit (reason : ShutdownReason)
  | CellPpo2 (cells : List Nat)
  | OboeStatus (batteryOk : Bool) (batteryVoltage unknown1 unknown2 unknown3 : Nat)
  | AmbientPressure (surface current : Nat) (depthComp : Bool)
  | Uds (raw : List Nat)
  | TankPressure (cylinderIndex pressure : Nat)
  | Nop
  | CellVoltages (cellVoltages : List Nat) (unused : Nat)
  | Ppo2CalibrationResponse (status : CalStatusCode) (cellVoltages : List Nat)
      (fo2 pressure cellsActive : Nat)
  | Ppo2CalibrationRequest (fo2 pressure : Nat)
  | Co2Enabled (enabled : Bool)
  | Co2 (unknown pco2 : Nat)
  | Co2CalibrationResponse (code pco2 : Nat)
  | Co2CalibrationRequest (pco2 : Nat)
  | Undocumented30 (raw : List Nat)
  | BusInit (unused : List Nat)
  | TempProbe (sensorId temp : Nat)
  | UndocumentedC3 (unknown1 unknown2 unknown3 unknown4 : Nat)
  | TempProbeEnabled (enabled : Bool)
  | Setpoint (setpoint : Nat)
  | CellStatus (cellsActive : Nat) (consensus : Consensus)
  | SoloStatus (voltage current injectionDuration setpoint : Nat)
      (consensus : Consensus) (voltageAlert : Option VoltageAlert)
      (currentAlert : Option CurrentAlert)
  | Diving (status diveNumber timestamp : Nat)
  | Serial (raw : List Nat)
deriving Repr, DecidableEq

/-- `Msg::kind`. -/
def Msg.kind : Msg → Nat
  | .Id .. => 0x00
  | .DeviceName .. => 0x01
  | .Alert .. => 0x02
  | .ShutdownInit .. => 0x03
  | .CellPpo2 .. => 0x04
  | .OboeStatus .. => 0x07
  | .AmbientPressure .. => 0x08
  | .Uds .. => 0x0A
  | .TankPressure .. => 0x0B
  | .Nop => 0x10
  | .CellVoltages .. => 0x11
  | .Ppo2CalibrationResponse .. => 0x12
  | .Ppo2CalibrationRequest .. => 0x13
  | .Co2Enabled .. => 0x20
  | .Co2 .. => 0x21
  | .Co2CalibrationResponse .. => 0x22
  | .Co2CalibrationRequest .. => 0x23
  | .Undocumented30 .. => 0x30
  | .BusInit .. => 0x37
  | .TempProbe .. => 0xC1
  | .UndocumentedC3 .. => 0xC3
  | .TempProbeEnabled .. => 0xC4
  | .Setpoint .. => 0xC9
  | .CellStatus .. => 0xCA
  | .SoloStatus .. => 0xCB
  | .Diving .. => 0xCC
  | .Serial .. => 0xD2

/-- `Msg::dlc`. -/
def Msg.dlc : Msg → Nat
  | .Id .. => 3
  | .DeviceName .. => 8
  | .Alert _ _ details => 3 + details.length
  | .ShutdownInit .. => 1
  | .CellPpo2 .. => 4
  | .CellVoltages .. => 7
  | .CellStatus .. => 2
  | .SoloStatus .. => 8
  | .OboeStatus .. => 5
  | .AmbientPressure .. => 5
  | .TankPressure .. => 3
  | .Co2Enabled .. => 1
  | .Co2 .. => 3
  | .Co2CalibrationResponse .. => 3
  | .Co2CalibrationRequest .. => 2
  | .Ppo2CalibrationRequest .. => 3
  | .Ppo2CalibrationResponse .. => 8
  | .Setpoint .. => 1
  | .TempProbeEnabled .. => 1
  | .TempProbe .. => 3
  | .UndocumentedC3 .. => 6
  | .Diving .. => 7
  | .BusInit .. => 3
  | .Undocumented30 .. => 3
  | .Nop => 8
  | .Uds .. => 8
  | .Serial .. => 8

/-- `Msg::dlc_min_size`. -/
def Msg.dlcMinSize (kind : Nat) : Option Nat :=
  match kind with
  | 0x00 => some 3
  | 0x01 => some 8
  | 0x02 => some 3
  | 0x03 => some 1
  | 0x04 => some 4
  | 0x07 => some 5
  | 0x08 => some 5
  | 0x0A => some 8
  | 0x0B => some 3
  | 0x10 => some 8
  | 0x11 => some 7
  | 0x12 => some 8
  | 0x13 => some 3
  | 0x20 => some 1
  | 0x21 => some 3
  | 0x22 => some 3
  | 0x23 => some 2
  | 0x30 => some 3
  | 0x37 => some 3
  | 0xC1 => some 3
  | 0xC3 => some 6
  | 0xC4 => some 1
  | 0xC9 => some 1
  | 0xCA => some 2
  | 0xCB => some 8
  | 0xCC => some 7
  | 0xD2 => some 8
  | _ => none

/-- `Msg::to_frame`: payload bytes of the emitted frame. -/
def Msg.frameData : Msg → List Nat
  | .Id m u v => [m, u, v, 0, 0, 0, 0, 0]
  | .DeviceName name => name
  | .Alert unknown code details =>
    unknown :: hi8 code :: lo8 code :: (details ++ List.replicate (5 - details.length) 0)
  | .ShutdownInit cause => [cause.toU8, 0, 0, 0, 0, 0, 0, 0]
  | .CellPpo2 cells =>
    [0, cells.getD 0 0, cells.getD 1 0, cells.getD 2 0, 0, 0, 0, 0]
  | .OboeStatus ok bv b2 b3 b4 => [if ok then 1 else 0, bv, b2, b3, b4, 0, 0, 0]
  | .AmbientPressure s c dc =>
    [hi8 s, lo8 s, hi8 c, lo8 c, if dc then 1 else 0, 0, 0, 0]
  | .Uds raw => raw
  | .TankPressure cyl p => [cyl, hi8 p, lo8 p, 0, 0, 0, 0, 0]
  | .Nop => [0, 0, 0, 0, 0, 0, 0, 0]
  | .CellVoltages cv unknown =>
    [hi8 (cv.getD 0 0), lo8 (cv.getD 0 0), hi8 (cv.getD 1 0), lo8 (cv.getD 1 0),
     hi8 (cv.getD 2 0), lo8 (cv.getD 2 0), unknown, 0]
  | .Ppo2CalibrationResponse status cv fo2 p ca =>
    [status.toByte, cv.getD 0 0, cv.getD 1 0, cv.getD 2 0, fo2, hi8 p, lo8 p, ca]
  | .Ppo2CalibrationRequest fo2 p => [fo2, hi8 p, lo8 p, 0, 0, 0, 0, 0]
  | .Co2Enabled b => [if b then 1 else 0, 0, 0, 0, 0, 0, 0, 0]
  | .Co2 unknown pco2 => [unknown, hi8 pco2, lo8 pco2, 0, 0, 0, 0, 0]
  | .Co2CalibrationResponse code pco2 => [code, hi8 pco2, lo8 pco2, 0, 0, 0, 0, 0]
  | .Co2CalibrationRequest pco2 => [hi8 pco2, lo8 pco2, 0, 0, 0, 0, 0, 0]
  | .Undocumented30 raw => raw ++ List.replicate 5 0
  | .BusInit unused => unused ++ List.replicate 5 0
  | .TempProbe sid temp => [sid, hi8 temp, lo8 temp, 0, 0, 0, 0, 0]
  | .UndocumentedC3 u1 u2 u3 u4 =>
    [hi8 u1, lo8 u1, hi8 u2, lo8 u2, u3, u4, 0, 0]
  | .TempProbeEnabled b => [if b then 1 else 0, 0, 0, 0, 0, 0, 0, 0]
  | .Setpoint v => [v, 0, 0, 0, 0, 0, 0, 0]
  | .CellStatus ca consensus => [ca, consensus.toU8, 0, 0, 0, 0, 0, 0]
  | .SoloStatus voltage current inj setpoint consensus va ca =>
    [voltage, hi8 current, lo8 current, hi8 inj, lo8 inj, setpoint, consensus.toU8,
     (VoltageAlert.to2bitOpt va &&& 0b11) |||
       ((CurrentAlert.to2bitOpt ca &&& 0b11) <<< 2)]
  | .Diving status dn ts => status :: hi8 dn :: lo8 dn :: (be32 ts ++ [0])
  | .Serial raw => raw

/-- `Msg::to_frame`. -/
def Msg.toFrame (m : Msg) : DiveCanFrame :=
  { kind := m.kind, dlc := m.dlc, data := m.frameData }

/-- `Alert::new` (checks `details.len() <= 5`). -/
def alertNew (unknown code : Nat) (details : List Nat) : Except DecodeError Msg :=
  if details.length > 5 then .error .DlcMismatch
  else .ok (.Alert unknown code details)

/-- `Msg::try_from_frame`. -/
def Msg.tryFromFrame (frame : DiveCanFrame) : Except DecodeError Msg :=
  match Msg.dlcMinSize frame.kind with
  | none => .error (.UnknownKind frame.kind)
  | some expected =>
    if frame.dlc < expected ∨ frame.dlc > 8 then .error .DlcMismatch
    else
      let d := fun i => frame.data.getD i 0
      match frame.kind with
      | 0x00 => .ok (.Id (d 0) (d 1) (d 2))
      | 0x01 => .ok (.DeviceName frame.data)
      | 0x02 =>
        let len := frame.dlc - 3
        let code := d 1 * 256 + d 2
        let details := (frame.data.drop 3).take len
        alertNew (d 0) code details
      | 0x03 => .ok (.ShutdownInit (ShutdownReason.fromU8 (d 0)))
      | 0x04 => .ok (.CellPpo2 [d 1, d 2, d 3])
      | 0x07 => .ok (.OboeStatus (d 0 ≠ 0) (d 1) (d 2) (d 3) (d 4))
      | 0x08 => .ok (.AmbientPressure (d 0 * 256 + d 1) (d 2 * 256 + d 3) (d 4 ≠ 0))
      | 0x0A => .ok (.Uds frame.data)
      | 0x0B => .ok (.TankPressure (d 0) (d 1 * 256 + d 2))
      | 0x10 => .ok .Nop
      | 0x11 => .ok (.CellVoltages
          [d 0 * 256 + d 1, d 2 * 256 + d 3, d 4 * 256 + d 5] (d 6))
      | 0x12 => .ok (.Ppo2CalibrationResponse (CalStatusCode.fromByte (d 0))
          [d 1, d 2, d 3] (d 4) (d 5 * 256 + d 6) (cellsActiveFromU8 (d 7)))
      | 0x13 => .ok (.Ppo2CalibrationRequest (d 0) (d 1 * 256 + d 2))
      | 0x20 => .ok (.Co2Enabled (d 0 ≠ 0))
      | 0x21 => .ok (.Co2 (d 0) (d 1 * 256 + d 2))
      | 0x22 => .ok (.Co2CalibrationResponse (d 0) (d 1 * 256 + d 2))
      | 0x23 => .ok (.Co2CalibrationRequest (d 0 * 256 + d 1))
      | 0x30 => .ok (.Undocumented30 [d 0, d 1, d 2])
      | 0x37 => .ok (.BusInit [d 0, d 1, d 2])
      | 0xC1 => .ok (.TempProbe (d 0) (d 1 * 256 + d 2))
      | 0xC3 => .ok (.UndocumentedC3 (d 0 * 256 + d 1) (d 2 * 256 + d 3) (d 4) (d 5))
      | 0xC4 => .ok (.TempProbeEnabled (d 0 ≠ 0))
      | 0xC9 => .ok (.Setpoint (d 0))
      | 0xCA => .ok (.CellStatus (cellsActiveFromU8 (d 0)) (Consensus.fromU8 (d 1)))
      | 0xCB => .ok (.SoloStatus (d 0) (d 1 * 256 + d 2) (d 3 * 256 + d 4) (d 5)
          (Consensus.fromU8 (d 6))
          (VoltageAlert.from2bitOpt (d 7 &&& 0b0011))
          (CurrentAlert.from2bitOpt ((d 7 &&& 0b1100) >>> 2)))
      | 0xCC => .ok (.Diving (d 0) (d 1 * 256 + d 2)
          (d 3 * 2 ^ 24 + d 4 * 2 ^ 16 + d 5 * 2 ^ 8 + d 6))
      | 0xD2 => .ok (.Serial frame.data)
      | other => .error (.UnknownKind other)

/-- Typing side conditions the Rust type system enforces on a `Msg`
value: `u8` fields are `< 256`, `u16` fields `< 2^16`, `u32` fields
`< 2^32`, fixed arrays have their length, `Alert` details fit 5 bytes,
`CellsActive` wraps a 3-bit mask, `Consensus`/`ShutdownReason`/
`CalStatusCode` payloads are bytes. -/
def Msg.WF : Msg → Prop
  | .Id m u v => m < 256 ∧ u < 256 ∧ v < 256
  | .DeviceName name => name.length = 8
  | .Alert unknown code details => unknown < 256 ∧ code < 65536 ∧ details.length ≤ 5
  | .ShutdownInit r => (match r with | .Unknown v => v < 256 | _ => True)
  | .CellPpo2 cells => cells.length = 3
  | .OboeStatus _ bv b2 b3 b4 => bv < 256 ∧ b2 < 256 ∧ b3 < 256 ∧ b4 < 256
  | .AmbientPressure s c _ => s < 65536 ∧ c < 65536
  | .Uds raw => raw.length = 8
  | .TankPressure cyl p => cyl < 256 ∧ p < 65536
  | .Nop => True
  | .CellVoltages cv unused => cv.length = 3 ∧ (∀ x ∈ cv, x < 65536) ∧ unused < 256
  | .Ppo2CalibrationResponse status cv fo2 p ca =>
    (match status with | .Unknown v => v < 256 | _ => True) ∧
    cv.length = 3 ∧ fo2 < 256 ∧ p < 65536 ∧ ca < 8
  | .Ppo2CalibrationRequest fo2 p => fo2 < 256 ∧ p < 65536
  | .Co2Enabled _ => True
  | .Co2 unknown pco2 => unknown < 256 ∧ pco2 < 65536
  | .Co2CalibrationResponse code pco2 => code < 256 ∧ pco2 < 65536
  | .Co2CalibrationRequest pco2 => pco2 < 65536
  | .Undocumented30 raw => raw.length = 3
  | .BusInit unused => unused.length = 3
  | .TempProbe sid temp => sid < 256 ∧ temp < 65536
  | .UndocumentedC3 u1 u2 u3 u4 => u1 < 65536 ∧ u2 < 65536 ∧ u3 < 256 ∧ u4 < 256
  | .TempProbeEnabled _ => True
  | .Setpoint v => v < 256
  | .CellStatus ca consensus =>
    ca < 8 ∧ (match consensus with | .PpO2 v => v < 256 | _ => True)
  | .SoloStatus voltage current inj setpoint consensus _ _ =>
    voltage < 256 ∧ current < 65536 ∧ inj < 65536 ∧ setpoint < 256 ∧
    (match consensus with | .PpO2 v => v < 256 | _ => True)
  | .Diving status dn ts => status < 256 ∧ dn < 65536 ∧ ts < 2 ^ 32
  | .Serial raw => raw.length = 8

/-- A `Msg` is canonical when the "escape" variants of its embedded enums
do not collide with a named variant's wire byte: `ShutdownReason::Unknown`
only for bytes other than `0x00`/`0x01`, `CalStatusCode::Unknown` only
for bytes outside the named status codes, and `Consensus::PpO2` only for
raw values other than `0xFE`/`0xFF`. -/
def Msg.Canonical : Msg → Prop
  | .ShutdownInit r => (match r with | .Unknown v => v ≠ 0x00 ∧ v ≠ 0x01 | _ => True)
  | .Ppo2CalibrationResponse status _ _ _ _ =>
    (match status with
     | .Unknown v =>
       v ≠ 0x01 ∧ v ≠ 0x05 ∧ v ≠ 0x08 ∧ v ≠ 0x10 ∧ v ≠ 0x18 ∧ v ≠ 0x20 ∧ v ≠ 0x28
     | _ => True)
  | .CellStatus _ consensus =>
    (match consensus with | .PpO2 v => v ≠ 0xfe ∧ v ≠ 0xff | _ => True)
  | .SoloStatus _ _ _ _ consensus _ _ =>
    (match consensus with | .PpO2 v => v ≠ 0xfe ∧ v ≠ 0xff | _ => True)
  | _ => True

end Divecan

/-! ## Device DIDs (`src/diag/did.rs`) -/

namespace Did

/-- `DidDecodeError`. -/
inductive DidDecodeError where
  | TooShort (needed : Nat)
  | BadLength (expected : Nat)
  | InvalidFormat
deriving Repr, DecidableEq

/-- `PPO2ControlMode`. -/
inductive PPO2ControlMode where
  | UserSelect
  | Manual
  | OneSec
  | FiveSec
deriving Repr, DecidableEq

/-- `PPO2ControlMode::from_u8`. -/
def PPO2ControlMode.fromU8 (v : Nat) : Option PPO2ControlMode :=
  if v = 0 then some .UserSelect
  else if v = 1 then some .Manual
  else if v = 2 then some .OneSec
  else if v = 3 then some .FiveSec
  else none

/-- `PPO2ControlMode as u32` (the `#[repr(u8)]` discriminant). -/
def PPO2ControlMode.toNat : PPO2ControlMode → Nat
  | .UserSelect => 0
  | .Manual => 1
  | .OneSec => 2
  | .FiveSec => 3

/-- `CalibrationProcedure`. -/
inductive CalibrationProcedure where
  | Direct
  | Monitored
deriving Repr, DecidableEq

/-- `CellMode`. -/
inductive CellMode where
  | TwoCell
  | ThreeCell
deriving Repr, DecidableEq

/-- `SoloConfigDid` (DID `0x820B`). -/
structure SoloConfigDid where
  calibration_procedure : CalibrationProcedure
  ppo2_control_mode : PPO2ControlMode
  cell_mode : CellMode
  depth_compensation_enabled : Bool
  solenoid_current_min_ma : Nat
  solenoid_current_max_ma : Nat
  battery_voltage_min : Nat
  battery_voltage_doubling : Bool
  reserved_bits_20_21 : Nat
  reserved_bits_24_31 : Nat
deriving Repr, DecidableEq

/-- The `config_word` accumulated by `SoloConfigDid::to_bytes`
(`u16` subtraction is saturating in the source; `Nat` subtraction
matches). -/
def SoloConfigDid.configWord (c : SoloConfigDid) : Nat :=
  let w0 : Nat := if c.calibration_procedure = .Monitored then 1 else 2
  let w1 := w0 ||| ((c.ppo2_control_mode.toNat &&& 0x3) <<< 2)
  let w2 := if c.cell_mode = .ThreeCell then w1 ||| (1 <<< 4) else w1
  let w3 := if c.depth_compensation_enabled then w2 ||| (1 <<< 6) else w2 ||| (2 <<< 6)
  let solMinRaw := ((c.solenoid_current_min_ma - 50) / 10) &&& 0xF
  let w4 := w3 ||| (solMinRaw <<< 8)
  let solMaxRaw := ((c.solenoid_current_max_ma - 50) / 10) &&& 0x1F
  let w5 := w4 ||| ((solMaxRaw &&& 0xF) <<< 12)
  let w6 := w5 ||| ((solMaxRaw >>> 4) <<< 23)
  let battRaw0 := if c.battery_voltage_doubling then c.battery_voltage_min >>> 1
                  else c.battery_voltage_min
  let battRaw := ((battRaw0 - 50) >>> 1) &&& 0xF
  let w7 := w6 ||| (battRaw <<< 16)
  let w8 := if c.battery_voltage_doubling then w7 ||| (1 <<< 22) else w7
  let w9 := w8 ||| ((c.reserved_bits_20_21 &&& 0x3) <<< 20)
  w9 ||| (c.reserved_bits_24_31 <<< 24)

/-- `SoloConfigDid::to_bytes` (`config_word.to_be_bytes()`). -/
def SoloConfigDid.toBytes (c : SoloConfigDid) : List Nat :=
  Divecan.be32 c.configWord

/-- `SoloConfigDid::try_from`. -/
def SoloConfigDid.tryFrom (bytes : List Nat) : Except DidDecodeError SoloConfigDid :=
  if bytes.length ≠ 4 then .error (.BadLength 4)
  else
    let w := bytes.getD 0 0 * 2 ^ 24 + bytes.getD 1 0 * 2 ^ 16 +
             bytes.getD 2 0 * 2 ^ 8 + bytes.getD 3 0
    match PPO2ControlMode.fromU8 ((w >>> 2) &&& 0x3) with
    | none => .error .InvalidFormat
    | some mode =>
      let solMaxLo := (w >>> 12) &&& 0xF
      let solMaxHi := (w >>> 23) &&& 0x1
      let battMinRaw := (w >>> 16) &&& 0xF
      let dbl := ((w >>> 22) &&& 0x1) == 1
      let battMin0 := 50 + (battMinRaw <<< 1)
      .ok { calibration_procedure :=
              if w &&& 0x3 = 1 then .Monitored else .Direct,
            ppo2_control_mode := mode,
            cell_mode := if ((w >>> 4) &&& 0x3) = 1 then .ThreeCell else .TwoCell,
            depth_compensation_enabled := ((w >>> 6) &&& 0x3) == 1,
            solenoid_current_min_ma := 50 + ((w >>> 8) &&& 0xF) * 10,
            solenoid_current_max_ma := 50 + ((solMaxHi <<< 4) ||| solMaxLo) * 10,
            battery_voltage_min := if dbl then battMin0 <<< 1 else battMin0,
            battery_voltage_doubling := dbl,
            reserved_bits_20_21 := (w >>> 20) &&& 0x3,
            reserved_bits_24_31 := (w >>> 24) &&& 0xFF }

/-- The constrained field ranges of §4.11 under which the bit packing is
injective: solenoid currents of the form `50 + 10·k` within the 4-bit /
5-bit raw ranges, battery voltage of the form `50 + 2·k` (`k ≤ 15`),
doubled when `battery_voltage_doubling`, reserved fields within their
bit widths. -/
def SoloConfigDid.InRange (c : SoloConfigDid) : Prop :=
  (∃ k < 16, c.solenoid_current_min_ma = 50 + 10 * k) ∧
  (∃ k < 32, c.solenoid_current_max_ma = 50 + 10 * k) ∧
  (if c.battery_voltage_doubling then ∃ k < 16, c.battery_voltage_min = 2 * (50 + 2 * k)
   else ∃ k < 16, c.battery_voltage_min = 50 + 2 * k) ∧
  c.reserved_bits_20_21 < 4 ∧ c.reserved_bits_24_31 < 256

end Did

/-! ## Solo log decryption (`src/diag/solo.rs`) -/

namespace Solo

def lcgMult : Nat := 0x10A860C1
def lcgMod : Nat := 0xFFFFFFFB

/-- `u32::to_le_bytes`. -/
def u32le (t : Nat) : List Nat :=
  [t % 256, t / 2 ^ 8 % 256, t / 2 ^ 16 % 256, t / 2 ^ 24 % 256]

/-- `LogDecryptor`.  The DES encryptor trait object is modelled as an
arbitrary block function `List Nat → List Nat`. -/
structure LogDecryptor where
  keyMaterial : List (List Nat)
  seed : Nat
  pos : Nat
deriving Repr, DecidableEq

/-- `LogDecryptor::new`. -/
def LogDecryptor.new (des : List Nat → List Nat) (deviceId : List Nat)
    (timestamp : Nat) : LogDecryptor :=
  let block0 := deviceId.take 8
  let block1 := (deviceId.drop 8).take 4 ++ u32le timestamp
  let block2 : List Nat := [0xda, 0x65, 0x20, 0x33, 0xc8, 0x57, 0x40, 0xd3]
  { keyMaterial := [des block0, des block1, des block2],
    seed := timestamp, pos := 0 }

/-- One byte of `LogDecryptor::decrypt`: returns the decrypted byte and
the updated `(seed, pos)`.  `wrapping_mul` is `% 2^64` on `u64`. -/
def decryptStep (km : List (List Nat)) (seed pos b : Nat) : Nat × Nat × Nat :=
  let blockIndex := pos >>> 3
  let byteIndex := pos &&& 7
  let keyByte := (km.getD blockIndex []).getD byteIndex 0
  let seed' := seed * lcgMult % 2 ^ 64 % lcgMod
  let keystreamByte := seed' &&& 0xFF
  (b ^^^ (keyByte ^^^ keystreamByte), seed', if pos + 1 = 24 then 0 else pos + 1)

/-- The loop body of `LogDecryptor::decrypt` over a byte list. -/
def decryptGo (km : List (List Nat)) (seed pos : Nat) :
    List Nat → List Nat × Nat × Nat
  | [] => ([], seed, pos)
  | b :: bs =>
    let st := decryptStep km seed pos b
    let rest := decryptGo km st.2.1 st.2.2 bs
    (st.1 :: rest.1, rest.2)

/-- `LogDecryptor::decrypt` (in-place buffer update modelled by returning
the new buffer contents together with the updated decryptor). -/
def LogDecryptor.decrypt (d : LogDecryptor) (buf : List Nat) :
    List Nat × LogDecryptor :=
  let r := decryptGo d.keyMaterial d.seed d.pos buf
  (r.1, { d with seed := r.2.1, pos := r.2.2 })

end Solo

/-! ## User-setting payloads (`src/diag/settings.rs`) -/

namespace Settings

/-- `UserSettingDidError`. -/
inductive UserSettingDidError where
  | TooShort (needed : Nat)
  | TooLong (max : Nat)
  | InvalidFormat
  | UnknownDid (did : Nat)
  | BadSettingType (v : Nat)
  | BadEnumIndex (v : Nat)
deriving Repr, DecidableEq

/-- `UserSettingDidError::length_mismatch`. -/
def lengthMismatch (actual expected : Nat) : UserSettingDidError :=
  if actual < expected then .TooShort expected else .TooLong expected

/-- `UserSettingType`. -/
inductive UserSettingType where
  | Integer
  | Selection
  | Scaled
deriving Repr, DecidableEq

/-- `impl TryFrom<u8> for UserSettingType`. -/
def UserSettingType.tryFrom (v : Nat) :
    Except UserSettingDidError UserSettingType :=
  if v = 0 then .ok .Integer
  else if v = 1 then .ok .Selection
  else if v = 2 then .ok .Scaled
  else .error (.BadSettingType v)

/-- `UserSettingDid`. -/
inductive UserSettingDid where
  | Count
  | Info (index : Nat)
  | ReadState (index : Nat)
  | Enum (index enumIndex : Nat)
  | WriteInput (index : Nat)
deriving Repr, DecidableEq

/-- `UserSettingInput { len: u8, bytes: [u8; 8] }`. -/
structure UserSettingInput where
  len : Nat
  bytes : List Nat
deriving Repr, DecidableEq

/-- `UserSettingPayload`. -/
inductive UserSettingPayload where
  | Count (v : Nat)
  | Info (name : List Nat) (editable : Bool) (kind : UserSettingType)
  | State (raw : List Nat)
  | Input (input : UserSettingInput)
  | Enum (name : List Nat)
deriving Repr, DecidableEq

/-- `UserSettingPayload::decode`. -/
def UserSettingPayload.decode (ident : UserSettingDid) (data : List Nat) :
    Except UserSettingDidError UserSettingPayload :=
  match ident with
  | .Count =>
    if data.length < 1 then .error (.TooShort 1)
    else .ok (.Count (data.getD 0 0))
  | .Info _ =>
    if data.length < 12 then .error (.TooShort 12)
    else
      match UserSettingType.tryFrom (data.getD 10 0) with
      | .error e => .error e
      | .ok kind => .ok (.Info (data.take 10) (data.getD 11 0 != 0) kind)
  | .ReadState _ =>
    if data.length ≠ 16 then .error (lengthMismatch data.length 16)
    else .ok (.State data)
  | .Enum _ _ =>
    if data.length ≠ 8 then .error (lengthMismatch data.length 8)
    else .ok (.Enum data)
  | .WriteInput _ =>
    if data.length < 4 then .error (.TooShort 4)
    else if data.length > 8 then .error (.TooLong 8)
    else .ok (.Input ⟨data.length, data ++ List.replicate (8 - data.length) 0⟩)

end Settings

/-! ## UDS PDU layer and client sessions
(`src/uds/uds.rs`, `crates/candive/src/uds/client.rs`) -/

namespace Uds

/-- `UdsDecodeError`. -/
inductive UdsDecodeError where
  | TooShort (needed : Nat)
  | BadLength (expected : Nat)
  | InvalidFormat
deriving Repr, DecidableEq

/-- `UdsEncodeError`. -/
inductive UdsEncodeError where
  | BufferTooSmall (needed capacity : Nat)
deriving Repr, DecidableEq

/-- `UdsErrorCode`. -/
inductive UdsErrorCode where
  | GeneralReject
  | IncorrectMessageLengthOrInvalidFormat
  | BusyRepeatRequest
  | ConditionsNotCorrect
  | RequestSequenceError
  | RequestOutOfRange
  | AuthenticationRequired
  | GeneralProgrammingFailure
  | WrongBlockSequenceCounter
  | Unknown (v : Nat)
deriving Repr, DecidableEq

/-- `UdsErrorCode::from_u8`. -/
def UdsErrorCode.fromU8 (v : Nat) : UdsErrorCode :=
  if v = 0x10 then .GeneralReject
  else if v = 0x13 then .IncorrectMessageLengthOrInvalidFormat
  else if v = 0x21 then .BusyRepeatRequest
  else if v = 0x22 then .ConditionsNotCorrect
  else if v = 0x24 then .RequestSequenceError
  else if v = 0x31 then .RequestOutOfRange
  else if v = 0x34 then .AuthenticationRequired
  else if v = 0x72 then .GeneralProgrammingFailure
  else if v = 0x73 then .WrongBlockSequenceCounter
  else .Unknown v

/-- `NegativeResponse`. -/
structure NegativeResponse where
  service : Nat
  code : UdsErrorCode
deriving Repr, DecidableEq

/-- `UdsPduWriter` over a caller buffer of capacity `cap`; `bytes` models
`buf[..len]`. -/
structure UdsPduWriter where
  cap : Nat
  bytes : List Nat
deriving Repr, DecidableEq

def UdsPduWriter.new (cap : Nat) : UdsPduWriter := ⟨cap, []⟩

/-- `UdsPduWriter::set_header` (writes `DIVE_CAN_UDS_ADDR = 0x00` and the
SID). -/
def UdsPduWriter.setHeader (w : UdsPduWriter) (sid : Nat) :
    Except UdsEncodeError UdsPduWriter :=
  if w.cap < 2 then .error (.BufferTooSmall 2 w.cap)
  else .ok ⟨w.cap, [0x00, sid]⟩

/-- `UdsPduWriter::push`. -/
def UdsPduWriter.push (w : UdsPduWriter) (payload : List Nat) :
    Except UdsEncodeError UdsPduWriter :=
  if w.bytes.length + payload.length > w.cap then
    .error (.BufferTooSmall (w.bytes.length + payload.length) w.cap)
  else .ok ⟨w.cap, w.bytes ++ payload⟩

/-- `UdsPduView::check_positive`. -/
def checkPositive (bytes : List Nat) : Except NegativeResponse Unit :=
  if bytes.length ≥ 4 ∧ bytes.getD 1 0 = 0x7F then
    .error ⟨bytes.getD 2 0, UdsErrorCode.fromU8 (bytes.getD 3 0)⟩
  else .ok ()

/-- `UdsPduView::expect_sid`. -/
def expectSid (bytes : List Nat) (sid minLen : Nat) :
    Except UdsDecodeError Unit :=
  if bytes.length < minLen then .error (.TooShort minLen)
  else if bytes.getD 1 0 ≠ sid then .error .InvalidFormat
  else .ok ()

/-- `TransferDataCodec::encode_request` (SID `0x36`). -/
def encodeTransferDataReq (txCap blockSeq : Nat) (payload : List Nat) :
    Except UdsEncodeError UdsPduWriter := do
  let w ← (UdsPduWriter.new txCap).setHeader 0x36
  let w ← w.push [blockSeq]
  w.push payload

/-- `TransferDataCodec::decode_response` (SID `0x76`): block counter at
byte 2, payload after byte 3. -/
def decodeTransferDataResp (bytes : List Nat) :
    Except UdsDecodeError (Nat × List Nat) :=
  match expectSid bytes 0x76 3 with
  | .error e => .error e
  | .ok _ => .ok (bytes.getD 2 0, bytes.drop 3)

/-- `ProtocolError`. -/
inductive ProtocolError where
  | WrongDid (expected got : Nat)
  | WrongBlockCounter (expected got : Nat)
  | EmptyPayload
  | UnexpectedResponse
deriving Repr, DecidableEq

/-- `UdsClientError<E>`. -/
inductive UdsClientError (ε : Type) where
  | Transport (e : ε)
  | NegativeResponse (n : NegativeResponse)
  | Decode (e : UdsDecodeError)
  | Encode (e : UdsEncodeError)
  | Protocol (e : ProtocolError)
  | ResponseTooLarge
deriving Repr, DecidableEq

/-- `transact::<TransferDataCodec>`: encode into the TX buffer, call the
transport, reject over-long responses, check for a negative response,
decode.  The transport is an oracle from request bytes to response
bytes. -/
def transactTransferData {ε : Type} (transport : List Nat → Except ε (List Nat))
    (txCap rxCap blockSeq : Nat) (payload : List Nat) :
    Except (UdsClientError ε) (Nat × List Nat) :=
  match encodeTransferDataReq txCap blockSeq payload with
  | .error e => .error (.Encode e)
  | .ok w =>
    match transport w.bytes with
    | .error e => .error (.Transport e)
    | .ok resp =>
      if resp.length > rxCap then .error .ResponseTooLarge
      else
        match checkPositive resp with
        | .error n => .error (.NegativeResponse n)
        | .ok _ =>
          match decodeTransferDataResp resp with
          | .error e => .error (.Decode e)
          | .ok r => .ok r

/-- `DownloadSession::send_block`.  The session state entering the call
is its pending counter `nextBlock`; the returned `Nat` is the counter
after the call (unchanged on error). -/
def sendBlock {ε : Type} (transport : List Nat → Except ε (List Nat))
    (txCap rxCap nextBlock : Nat) (data : List Nat) :
    Except (UdsClientError ε) Unit × Nat :=
  match transactTransferData transport txCap rxCap nextBlock data with
  | .error e => (.error e, nextBlock)
  | .ok (bs, _) =>
    if bs ≠ nextBlock then
      (.error (.Protocol (.WrongBlockCounter nextBlock bs)), nextBlock)
    else (.ok (), (nextBlock + 1) % 256)

/-- `UploadSession` state. -/
structure UploadSession where
  nextBlock : Nat
  totalSize : Nat
  transferred : Nat
deriving Repr, DecidableEq

/-- `UploadSession::read_block`: returns the result, the updated session
state, and the contents of the caller's output buffer. -/
def readBlock {ε : Type} (transport : List Nat → Except ε (List Nat))
    (txCap rxCap : Nat) (s : UploadSession) (out : List Nat) :
    Except (UdsClientError ε) Nat × UploadSession × List Nat :=
  if s.transferred ≥ s.totalSize then (.ok 0, s, out)
  else
    match transactTransferData transport txCap rxCap s.nextBlock [] with
    | .error e => (.error e, s, out)
    | .ok (bs, payload) =>
      if bs ≠ s.nextBlock then
        (.error (.Protocol (.WrongBlockCounter s.nextBlock bs)), s, out)
      else if payload.isEmpty then (.ok 0, s, out)
      else
        let remaining := s.totalSize - s.transferred
        let toCopy := min (min payload.length remaining) out.length
        (.ok toCopy,
         { s with transferred := s.transferred + toCopy,
                  nextBlock := (s.nextBlock + 1) % 256 },
         payload.take toCopy ++ out.drop toCopy)

end Uds

/-! ## Arithmetic helpers for the bit manipulations in the sources -/

theorem and_one_eq (x : Nat) : x &&& 1 = x % 2 := by
  simpa using Nat.and_pow_two_sub_one_eq_mod x 1

theorem and_three_eq (x : Nat) : x &&& 3 = x % 4 := by
  simpa using Nat.and_pow_two_sub_one_eq_mod x 2

theorem and_seven_eq (x : Nat) : x &&& 7 = x % 8 := by
  simpa using Nat.and_pow_two_sub_one_eq_mod x 3

theorem and_fifteen_eq (x : Nat) : x &&& 15 = x % 16 := by
  simpa using Nat.and_pow_two_sub_one_eq_mod x 4

theorem and_31_eq (x : Nat) : x &&& 31 = x % 32 := by
  simpa using Nat.and_pow_two_sub_one_eq_mod x 5

theorem and_255_eq (x : Nat) : x &&& 255 = x % 256 := by
  simpa using Nat.and_pow_two_sub_one_eq_mod x 8

theorem shiftR_div (x n : Nat) : x >>> n = x / 2 ^ n :=
  Nat.shiftRight_eq_div_pow x n

theorem shiftL_mul (x n : Nat) : x <<< n = x * 2 ^ n :=
  Nat.shiftLeft_eq x n

/-- `2^i * a ||| b = 2^i * a + b` when `b < 2^i`. -/
theorem or_eq_add_of_lt {b : Nat} (i a : Nat) (hb : b < 2 ^ i) :
    2 ^ i * a ||| b = 2 ^ i * a + b :=
  (Nat.mul_add_lt_is_or hb a).symm

theorem lor_sixteen {x : Nat} (h : x < 16) : 16 ||| x = 16 + x := by
  have := or_eq_add_of_lt 4 1 (by omega : x < 2 ^ 4)
  simpa using this

theorem lor_thirtytwo {x : Nat} (h : x < 16) : 32 ||| x = 32 + x := by
  have := or_eq_add_of_lt 5 1 (by omega : x < 2 ^ 5)
  simpa using this

/-! ## C8 — log decryption is a self-inverse keystream XOR -/

namespace Solo

theorem decryptGo_decryptGo (km : List (List Nat)) :
    ∀ (buf : List Nat) (seed pos : Nat),
      (decryptGo km seed pos (decryptGo km seed pos buf).1).1 = buf := by
  intro buf
  induction buf with
  | nil => intro seed pos; simp [decryptGo]
  | cons b bs ih =>
    intro seed pos
    simp only [decryptGo, decryptStep]
    rw [ih]
    congr 1
    rw [Nat.xor_assoc, Nat.xor_self, Nat.xor_zero]

end Solo

/-- Claim C8: for any single-block DES encryptor, any device id of at
least 12 bytes, any timestamp, and any byte buffer, decrypting twice
with freshly constructed `LogDecryptor`s built from the same inputs
restores the original buffer. -/
theorem c8_decrypt_twice_identity (des : List Nat → List Nat)
    (deviceId : List Nat) (timestamp : Nat) (buf : List Nat)
    (h : 12 ≤ deviceId.length) :
    ((Solo.LogDecryptor.new des deviceId timestamp).decrypt
       ((Solo.LogDecryptor.new des deviceId timestamp).decrypt buf).1).1 = buf := by
  simp only [Solo.LogDecryptor.decrypt]
  exact Solo.decryptGo_decryptGo _ buf _ _

/-- Witness for C8 at a concrete encryptor, device id, timestamp and
buffer. -/
theorem c8_decrypt_twice_identity_witness :
    ((Solo.LogDecryptor.new id (List.replicate 12 7) 99).decrypt
       ((Solo.LogDecryptor.new id (List.replicate 12 7) 99).decrypt
         [0, 1, 2, 250, 251]).1).1 = [0, 1, 2, 250, 251] :=
  c8_decrypt_twice_identity id (List.replicate 12 7) 99 [0, 1, 2, 250, 251]
    (by decide)

/-! ## C9 — WriteInput payload decoding -/

/-- Claim C9 counterexample: a 1-byte WriteInput payload is rejected with
`TooShort{needed: 4}`, contradicting the claim that decoding succeeds
exactly for payload lengths `1..=8`. -/
theorem c9_counterexample :
    Settings.UserSettingPayload.decode (.WriteInput 0) [0x41] =
      .error (.TooShort 4) := rfl

/-- Claim C9 (amended): `UserSettingPayload::decode` on a WriteInput DID
succeeds exactly when the payload length is in `4..=8`, yielding
`Input{len, bytes}` with `len` the payload length and `bytes` the payload
zero-padded to 8; shorter payloads fail with `TooShort{needed: 4}` and
longer ones with `TooLong{max: 8}`. -/
theorem c9_write_input_decode (i : Nat) (data : List Nat) :
    (4 ≤ data.length → data.length ≤ 8 →
      Settings.UserSettingPayload.decode (.WriteInput i) data =
        .ok (.Input ⟨data.length, data ++ List.replicate (8 - data.length) 0⟩)) ∧
    (data.length < 4 →
      Settings.UserSettingPayload.decode (.WriteInput i) data =
        .error (.TooShort 4)) ∧
    (8 < data.length →
      Settings.UserSettingPayload.decode (.WriteInput i) data =
        .error (.TooLong 8)) := by
  refine ⟨fun h4 h8 => ?_, fun h => ?_, fun h => ?_⟩
  · simp only [Settings.UserSettingPayload.decode]
    rw [if_neg (by omega), if_neg (by omega)]
  · simp only [Settings.UserSettingPayload.decode]
    rw [if_pos (by omega)]
  · simp only [Settings.UserSettingPayload.decode]
    rw [if_neg (by omega), if_pos (by omega)]

/-- Witness for C9 at a concrete 5-byte payload. -/
theorem c9_write_input_decode_witness :
    Settings.UserSettingPayload.decode (.WriteInput 2) [1, 2, 3, 4, 5] =
      .ok (.Input ⟨5, [1, 2, 3, 4, 5, 0, 0, 0]⟩) :=
  (c9_write_input_decode 2 [1, 2, 3, 4, 5]).1 (by decide) (by decide)

/-! ## C10 — a Single Frame mid-reassembly aborts and completes -/

/-- Claim C10: a valid Single Frame received while the reassembler is in
the `Receiving` state is accepted: the partial multi-frame message is
silently discarded, `on_frame` returns `Completed(sf_len)`, and the
payload afterwards is the Single Frame's payload. -/
theorem c10_single_frame_mid_reassembly (s : IsoTp.IsoTpRx)
    (f : IsoTp.IsoTpFrame) (n : Nat) (hrecv : s.state = .Receiving)
    (hb : f.data.getD 0 0 = n) (h1 : 1 ≤ n) (h7 : n ≤ 7)
    (hlen : f.len = 1 + n) :
    s.onFrame f =
      ({ state := .Idle, expectedLen := none,
         acc := (f.data.drop 1).take n, nextSn := 0 }, .ok (.Completed n)) := by
  have hpci : IsoTp.IsoTpPciType.fromU8 (f.data.getD 0 0) = some .Single := by
    rw [hb]
    have hn : n >>> 4 = 0 := by rw [shiftR_div]; omega
    simp [IsoTp.IsoTpPciType.fromU8, hn]
  have hand : n &&& 0xF = n := by rw [and_fifteen_eq]; omega
  simp only [IsoTp.IsoTpRx.onFrame, hlen, hpci]
  rw [if_neg (by omega)]
  simp only [IsoTp.IsoTpRx.handleSingle, hb, hand]
  rw [if_neg (by omega), if_neg (by omega),
      if_neg (by simp only [IsoTp.bufCap]; omega)]

/-- Witness for C10: a 2-byte Single Frame arriving while 6 bytes of an
11-byte message are pending completes with the Single Frame's payload. -/
theorem c10_single_frame_mid_reassembly_witness :
    IsoTp.IsoTpRx.onFrame
        ⟨.Receiving, some 11, [9, 9, 9, 9, 9, 9], 1⟩
        ⟨3, [2, 0xAA, 0xBB, 0, 0, 0, 0, 0]⟩ =
      ({ state := .Idle, expectedLen := none, acc := [0xAA, 0xBB],
         nextSn := 0 }, .ok (.Completed 2)) := by
  have h := c10_single_frame_mid_reassembly
    ⟨.Receiving, some 11, [9, 9, 9, 9, 9, 9], 1⟩
    ⟨3, [2, 0xAA, 0xBB, 0, 0, 0, 0, 0]⟩ 2 rfl rfl (by omega) (by omega) rfl
  simpa using h

/-! ## C3 — oversized Consecutive Frames are truncated, not rejected -/

/-- Claim C3 counterexample: with 6 of 8 expected bytes received, a
Consecutive Frame carrying 7 payload bytes (6 + 7 > 8) does **not** fail
with `Overflow`; the reassembler truncates the copy and returns
`Completed(8)`. -/
theorem c3_counterexample :
    ((IsoTp.IsoTpRx.new.onFrame ⟨8, [0x10, 0x08, 1, 2, 3, 4, 5, 6]⟩).1.state
        = .Receiving) ∧
    ((IsoTp.IsoTpRx.new.onFrame ⟨8, [0x10, 0x08, 1, 2, 3, 4, 5, 6]⟩).1.expectedLen
        = some 8) ∧
    ((IsoTp.IsoTpRx.new.onFrame ⟨8, [0x10, 0x08, 1, 2, 3, 4, 5, 6]⟩).1.acc.length
        = 6) ∧
    (((IsoTp.IsoTpRx.new.onFrame ⟨8, [0x10, 0x08, 1, 2, 3, 4, 5, 6]⟩).1.onFrame
        ⟨8, [0x21, 7, 8, 9, 10, 11, 12, 13]⟩).2 = .ok (.Completed 8)) :=
  ⟨rfl, rfl, rfl, rfl⟩

/-- Claim C3 (amended): when the reassembler is `Receiving` with pending
length `L` and a sequence-matching Consecutive Frame's payload would
overshoot (`used + payload_len > L`, `used < L`), `on_frame` truncates
the copy to `L - used` bytes and returns `Completed(L)`; it does not
fail with `Overflow`. -/
theorem c3_oversized_cf_truncates (s : IsoTp.IsoTpRx) (f : IsoTp.IsoTpFrame)
    (L pl : Nat) (hst : s.state = .Receiving) (hexp : s.expectedLen = some L)
    (hused : s.acc.length < L) (hcap : L ≤ 1024) (hsn : s.nextSn < 16)
    (hb : f.data.getD 0 0 = 0x20 ||| s.nextSn) (hdata : f.data.length = 8)
    (hlen : f.len = 1 + pl) (hpl : pl ≤ 7) (hover : L < s.acc.length + pl) :
    s.onFrame f =
      ({ state := .Idle, expectedLen := none,
         acc := s.acc ++ (f.data.drop 1).take (L - s.acc.length),
         nextSn := (s.nextSn + 1) &&& 0xF }, .ok (.Completed L)) := by
  have hb' : f.data.getD 0 0 = 32 + s.nextSn := by rw [hb, lor_thirtytwo hsn]
  have hpci : IsoTp.IsoTpPciType.fromU8 (f.data.getD 0 0) = some .Consecutive := by
    rw [hb']
    have hn : (32 + s.nextSn) >>> 4 = 2 := by rw [shiftR_div]; omega
    simp [IsoTp.IsoTpPciType.fromU8, hn]
  have hand : (32 + s.nextSn) &&& 0xF = s.nextSn := by
    rw [and_fifteen_eq]; omega
  have hacclen : (s.acc ++ (f.data.drop 1).take (L - s.acc.length)).length = L := by
    simp only [List.length_append, List.length_take, List.length_drop, hdata]
    omega
  simp only [IsoTp.IsoTpRx.onFrame, hlen, hpci]
  rw [if_neg (by omega)]
  simp only [IsoTp.IsoTpRx.handleConsecutive, hst, hexp, hb', hand]
  rw [if_neg (by simp), if_neg (by omega), if_neg (by omega)]
  have hcopy : min (f.len - 1) (L - s.acc.length) = L - s.acc.length := by omega
  rw [hcopy]
  rw [if_neg (by simp only [IsoTp.bufCap]; omega)]
  rw [if_neg (by omega), if_pos hacclen]
  rw [hacclen]

/-- Witness for C3 (amended): 6 of 8 bytes received, a 7-byte CF arrives;
the copy is truncated to 2 bytes and `Completed(8)` is returned. -/
theorem c3_oversized_cf_truncates_witness :
    IsoTp.IsoTpRx.onFrame ⟨.Receiving, some 8, [1, 2, 3, 4, 5, 6], 1⟩
        ⟨8, [0x21, 7, 8, 9, 10, 11, 12, 13]⟩ =
      ({ state := .Idle, expectedLen := none, acc := [1, 2, 3, 4, 5, 6, 7, 8],
         nextSn := 2 }, .ok (.Completed 8)) := by
  have h := c3_oversized_cf_truncates ⟨.Receiving, some 8, [1, 2, 3, 4, 5, 6], 1⟩
    ⟨8, [0x21, 7, 8, 9, 10, 11, 12, 13]⟩ 8 7 rfl rfl (by decide) (by decide)
    (by decide) (by decide) (by decide) (by decide) (by decide) (by decide)
  simpa using h

/-! ## C4 — reachable-state invariants of the reassembler -/

namespace IsoTp

theorem inv_new : Inv IsoTpRx.new := by simp [Inv, IsoTpRx.new]

theorem inv_reset (s : IsoTpRx) : Inv s.reset := by simp [Inv, IsoTpRx.reset]

theorem inv_handleSingle (s : IsoTpRx) (f : IsoTpFrame) (h : Inv s) :
    Inv (s.handleSingle f).1 := by
  simp only [IsoTpRx.handleSingle]
  split
  · exact h
  · split
    · exact h
    · split
      · exact h
      · refine ⟨(by decide : (0 : Nat) ≤ 15), fun hst => ?_⟩
        simp at hst

theorem inv_handleFirst (s : IsoTpRx) (f : IsoTpFrame) (h : Inv s) :
    Inv (s.handleFirst f).1 := by
  simp only [IsoTpRx.handleFirst]
  split
  · exact h
  · split
    · exact h
    · split
      · exact h
      · split
        · refine ⟨(by decide : (1 : Nat) ≤ 15), fun hst => ?_⟩
          simp at hst
        · refine ⟨(by decide : (1 : Nat) ≤ 15), fun _ => ?_⟩
          refine ⟨_, rfl, ?_⟩
          simp only [List.length_take]
          omega

theorem inv_handleConsecutive (s : IsoTpRx) (f : IsoTpFrame) (h : Inv s) :
    Inv (s.handleConsecutive f).1 := by
  obtain ⟨hsn, hrecv⟩ := h
  simp only [IsoTpRx.handleConsecutive]
  by_cases hst : s.state = RxState.Receiving
  · rw [if_neg (by simp [hst])]
    obtain ⟨L, hL, hlen⟩ := hrecv hst
    rw [hL]
    dsimp only
    by_cases hsneq : (f.data.getD 0 0) &&& 0xF ≠ s.nextSn
    · rw [if_pos hsneq]
      exact ⟨hsn, hrecv⟩
    · rw [if_neg hsneq]
      by_cases hge : s.acc.length ≥ L
      · rw [if_pos hge]
        exact ⟨hsn, hrecv⟩
      · rw [if_neg hge]
        by_cases hcap :
            s.acc.length + min (f.len - 1) (L - s.acc.length) > bufCap
        · rw [if_pos hcap]
          exact ⟨hsn, hrecv⟩
        · rw [if_neg hcap]
          have hsn' : (s.nextSn + 1) &&& 0xF ≤ 15 := by
            rw [and_fifteen_eq]; omega
          have hlen' :
              (s.acc ++ (f.data.drop 1).take
                  (min (f.len - 1) (L - s.acc.length))).length ≤ L := by
            simp only [List.length_append, List.length_take]
            omega
          by_cases hov :
              (s.acc ++ (f.data.drop 1).take
                  (min (f.len - 1) (L - s.acc.length))).length > L
          · rw [if_pos hov]
            exact ⟨hsn', fun _ => ⟨L, rfl, hlen'⟩⟩
          · rw [if_neg hov]
            by_cases heq :
                (s.acc ++ (f.data.drop 1).take
                    (min (f.len - 1) (L - s.acc.length))).length = L
            · rw [if_pos heq]
              refine ⟨hsn', fun h' => ?_⟩
              simp at h'
            · rw [if_neg heq]
              exact ⟨hsn', fun _ => ⟨L, rfl, hlen'⟩⟩
  · rw [if_pos hst]
    exact ⟨hsn, hrecv⟩

theorem inv_onFrame (s : IsoTpRx) (f : IsoTpFrame) (h : Inv s) :
    Inv (s.onFrame f).1 := by
  by_cases hlen : f.len = 0 ∨ f.len > 8
  · simp only [IsoTpRx.onFrame, hlen, if_true]
    exact h
  · simp only [IsoTpRx.onFrame, hlen, if_false]
    rcases hp : IsoTpPciType.fromU8 (f.data.getD 0 0) with - | pci
    · exact h
    · cases pci
      · exact inv_handleSingle s f h
      · have hf := inv_handleFirst s f h
        rcases hh : s.handleFirst f with ⟨s', r⟩
        rw [hh] at hf
        cases r <;> simpa using hf
      · exact inv_handleConsecutive s f h
      · exact h

theorem inv_reachable (s : IsoTpRx) (h : Reachable s) : Inv s := by
  induction h with
  | new => exact inv_new
  | reset _ _ => exact inv_reset _
  | step f hf _ ih => exact inv_onFrame _ f ih

theorem handleSingle_ok_idle (s : IsoTpRx) (f : IsoTpFrame)
    (e : IsoTpRxEvent) :
    (s.handleSingle f).2 = .ok e → (s.handleSingle f).1.state = .Idle := by
  simp only [IsoTpRx.handleSingle]
  split
  · intro h; simp at h
  · split
    · intro h; simp at h
    · split
      · intro h; simp at h
      · intro _; rfl

theorem handleConsecutive_completed_idle (s : IsoTpRx) (f : IsoTpFrame)
    (n : Nat) :
    (s.handleConsecutive f).2 = .ok (.Completed n) →
      (s.handleConsecutive f).1.state = .Idle := by
  simp only [IsoTpRx.handleConsecutive]
  split
  · intro h; simp at h
  · split
    · intro h; simp at h
    · split
      · intro h; simp at h
      · split
        · intro h; simp at h
        · split
          · intro h; simp at h
          · split
            · intro h; simp at h
            · split
              · intro _; rfl
              · intro h; simp at h

/-- Every `on_frame` call that returns `Completed` leaves the state
`Idle` (this holds for every starting state, reachable or not). -/
theorem completed_implies_idle (s : IsoTpRx) (f : IsoTpFrame) (n : Nat)
    (h : (s.onFrame f).2 = .ok (.Completed n)) :
    (s.onFrame f).1.state = .Idle := by
  by_cases hlen : f.len = 0 ∨ f.len > 8
  · simp only [IsoTpRx.onFrame, hlen, if_true] at h
    simp at h
  · simp only [IsoTpRx.onFrame, hlen, if_false] at h ⊢
    rcases hp : IsoTpPciType.fromU8 (f.data.getD 0 0) with - | pci <;>
      simp only [hp] at h ⊢
    · simp at h
    · cases pci
      · exact handleSingle_ok_idle s f _ h
      · rcases hh : s.handleFirst f with ⟨s', r⟩
        rw [hh] at h
        cases r <;> simp at h
      · exact handleConsecutive_completed_idle s f n h
      · simp at h

end IsoTp

/-- Claim C4 counterexample: the state reached from `new` by a single
First Frame whose `len` is 2 (it declares 8 bytes but carries none) is
`Receiving` with `used = 0`, violating the claimed `0 < used`. -/
theorem c4_counterexample :
    ((IsoTp.IsoTpRx.new.onFrame ⟨2, [0x10, 0x08, 0, 0, 0, 0, 0, 0]⟩).1.state
        = .Receiving) ∧
    ((IsoTp.IsoTpRx.new.onFrame ⟨2, [0x10, 0x08, 0, 0, 0, 0, 0, 0]⟩).1.expectedLen
        = some 8) ∧
    ((IsoTp.IsoTpRx.new.onFrame ⟨2, [0x10, 0x08, 0, 0, 0, 0, 0, 0]⟩).1.acc.length
        = 0) :=
  ⟨rfl, rfl, rfl⟩

/-- Claim C4 (amended): in every state reachable from `IsoTpRx::new()`
by `on_frame` and `reset` calls, `next_sn ∈ 0..=15` and, whenever the
state is `Receiving`, the pending length is set with
`used ≤ expected_len` (the lower bound `0 < used` fails, see the
counterexample); moreover every `on_frame` call returning `Completed`
leaves the state `Idle`. -/
theorem c4_reassembler_invariants (s : IsoTp.IsoTpRx)
    (hs : IsoTp.Reachable s) :
    (s.nextSn ≤ 15 ∧
      (s.state = .Receiving →
        ∃ L, s.expectedLen = some L ∧ s.acc.length ≤ L)) ∧
    (∀ f n, (s.onFrame f).2 = .ok (.Completed n) →
      (s.onFrame f).1.state = .Idle) :=
  ⟨IsoTp.inv_reachable s hs, fun f n h => IsoTp.completed_implies_idle s f n h⟩

/-! ## C2 — TX/RX round trip of the ISO-TP layer -/

namespace IsoTp

theorem take_add_append {α : Type} (l : List α) (m n : Nat) :
    l.take m ++ (l.drop m).take n = l.take (m + n) := by
  have h1 : (l.take (m + n)).take m = l.take m := by
    rw [List.take_take]
    congr 1
    omega
  rw [List.take_drop, ← h1, List.take_append_drop]

theorem txFrames_next_none {s : IsoTpTx} (h : s.next = none) :
    txFrames s = [] := by
  rw [txFrames]
  split
  · rfl
  · rename_i f t heq
    rw [h] at heq
    cases heq

theorem txFrames_next_some {s t : IsoTpTx} {f : IsoTpFrame}
    (h : s.next = some (f, t)) : txFrames s = f :: txFrames t := by
  rw [txFrames]
  split
  · rename_i heq
    rw [h] at heq
    cases heq
  · rename_i f' t' heq
    rw [h] at heq
    injection heq with heq2
    injection heq2 with hf ht
    rw [hf, ht]

theorem next_new_sf (p : List Nat) (h : p.length ≤ 7) :
    (IsoTpTx.new p).next =
      some (⟨1 + p.length, p.length :: (p ++ List.replicate (7 - p.length) 0)⟩,
            ⟨p, 0, .SingleDone, 0⟩) := by
  simp [IsoTpTx.next, IsoTpTx.new, h]

theorem next_singleDone (p : List Nat) (o sn : Nat) :
    (⟨p, o, .SingleDone, sn⟩ : IsoTpTx).next = none := rfl

theorem next_done (p : List Nat) (o sn : Nat) :
    (⟨p, o, .Done, sn⟩ : IsoTpTx).next = none := rfl

theorem next_new_ff (p : List Nat) (h : 8 ≤ p.length) :
    (IsoTpTx.new p).next =
      some (⟨8, (0x10 ||| ((p.length % 65536) >>> 8 &&& 0xF)) ::
                  ((p.length % 65536) &&& 0xFF) :: p.take 6⟩,
            ⟨p, 6, .FirstSent, 1⟩) := by
  have h6 : min 6 p.length = 6 := by omega
  simp only [IsoTpTx.next, IsoTpTx.new]
  rw [if_neg (by omega), h6]
  simp

theorem next_firstSent_exhausted (p : List Nat) (o sn : Nat)
    (h : p.length ≤ o) :
    (⟨p, o, .FirstSent, sn⟩ : IsoTpTx).next = none := by
  simp [IsoTpTx.next, h]

theorem next_firstSent (p : List Nat) (o sn : Nat) (h : o < p.length) :
    (⟨p, o, .FirstSent, sn⟩ : IsoTpTx).next =
      some (⟨1 + min (p.length - o) 7,
             (0x20 ||| (sn &&& 0xF)) ::
               ((p.drop o).take (min (p.length - o) 7) ++
                 List.replicate (7 - min (p.length - o) 7) 0)⟩,
            ⟨p, o + min (p.length - o) 7,
             if p.length ≤ o + min (p.length - o) 7 then .Done else .FirstSent,
             (sn + 1) &&& 0xF⟩) := by
  simp only [IsoTpTx.next]
  rw [dif_neg (by omega)]

/-- RX action on the Single Frame that `IsoTpTx` emits for a short
payload. -/
theorem onFrame_sf (p : List Nat) (h1 : 1 ≤ p.length) (h7 : p.length ≤ 7) :
    IsoTpRx.new.onFrame
        ⟨1 + p.length, p.length :: (p ++ List.replicate (7 - p.length) 0)⟩ =
      (⟨.Idle, none, p, 0⟩, .ok (.Completed p.length)) := by
  have hpci : IsoTpPciType.fromU8 p.length = some .Single := by
    have hx : p.length >>> 4 = 0 := by rw [shiftR_div]; omega
    simp [IsoTpPciType.fromU8, hx]
  have hand : p.length &&& 0xF = p.length := by rw [and_fifteen_eq]; omega
  simp only [IsoTpRx.onFrame]
  rw [if_neg (by omega)]
  simp only [List.getD_cons_zero, hpci]
  simp only [IsoTpRx.handleSingle, List.getD_cons_zero, hand]
  rw [if_neg (by omega), if_neg (by omega),
      if_neg (by simp only [bufCap]; omega)]
  simp only [List.drop_succ_cons, List.drop_zero]
  rw [List.take_left' rfl]

/-- RX action on the First Frame that `IsoTpTx` emits for a payload of
8 to 1024 bytes. -/
theorem onFrame_ff (p : List Nat) (h8 : 8 ≤ p.length)
    (hcap : p.length ≤ 1024) :
    IsoTpRx.new.onFrame
        ⟨8, (0x10 ||| ((p.length % 65536) >>> 8 &&& 0xF)) ::
              ((p.length % 65536) &&& 0xFF) :: p.take 6⟩ =
      (⟨.Receiving, some p.length, p.take 6, 1⟩, .ok .FlowControlRequired) := by
  have hm : p.length % 65536 = p.length := Nat.mod_eq_of_lt (by omega)
  have hdiv : p.length / 256 < 16 := by omega
  have hhi : (p.length % 65536) >>> 8 &&& 0xF = p.length / 256 := by
    rw [hm, shiftR_div, and_fifteen_eq]
    norm_num
    omega
  have hlo : (p.length % 65536) &&& 0xFF = p.length % 256 := by
    rw [hm, and_255_eq]
  have hb0 : 0x10 ||| p.length / 256 = 16 + p.length / 256 :=
    lor_sixteen hdiv
  have hpci : IsoTpPciType.fromU8 (16 + p.length / 256) = some .First := by
    have hx : (16 + p.length / 256) >>> 4 = 1 := by rw [shiftR_div]; omega
    simp [IsoTpPciType.fromU8, hx]
  have hand : (16 + p.length / 256) &&& 0xF = p.length / 256 := by
    rw [and_fifteen_eq]
    omega
  have htot : (p.length / 256) <<< 8 ||| p.length % 256 = p.length := by
    rw [shiftL_mul, Nat.mul_comm,
        or_eq_add_of_lt 8 (p.length / 256) (by omega)]
    omega
  simp only [IsoTpRx.onFrame]
  rw [if_neg (by omega)]
  simp only [List.getD_cons_zero, hhi, hb0, hpci]
  simp only [IsoTpRx.handleFirst, List.getD_cons_zero, List.getD_cons_succ,
    hand, hlo, htot]
  rw [if_neg (by omega), if_neg (by omega),
      if_neg (by simp only [bufCap]; omega)]
  have hmin : min (8 - 2) (min p.length 6) = 6 := by omega
  rw [hmin]
  rw [if_neg (by omega)]
  simp [List.take_take]

/-- RX action on a Consecutive Frame as `IsoTpTx` emits it, from the
matching mid-reassembly state. -/
theorem onFrame_cf (p : List Nat) (o sn c : Nat) (ho : o < p.length)
    (hcap : p.length ≤ 1024) (hsn : sn < 16) (hc1 : 1 ≤ c) (hc7 : c ≤ 7)
    (hco : o + c ≤ p.length) :
    (⟨.Receiving, some p.length, p.take o, sn⟩ : IsoTpRx).onFrame
        ⟨1 + c, (0x20 ||| (sn &&& 0xF)) ::
          ((p.drop o).take c ++ List.replicate (7 - c) 0)⟩ =
      (if o + c = p.length then
        (⟨.Idle, none, p.take (o + c), (sn + 1) &&& 0xF⟩,
         .ok (.Completed (o + c)))
       else
        (⟨.Receiving, some p.length, p.take (o + c), (sn + 1) &&& 0xF⟩,
         .ok .None)) := by
  have hsn15 : sn &&& 0xF = sn := by rw [and_fifteen_eq]; omega
  have hb0 : 0x20 ||| sn = 32 + sn := lor_thirtytwo hsn
  have hpci : IsoTpPciType.fromU8 (32 + sn) = some .Consecutive := by
    have hx : (32 + sn) >>> 4 = 2 := by rw [shiftR_div]; omega
    simp [IsoTpPciType.fromU8, hx]
  have hand : (32 + sn) &&& 0xF = sn := by rw [and_fifteen_eq]; omega
  have hlentake : (p.take o).length = o := by
    simp only [List.length_take]
    omega
  have hchunklen : ((p.drop o).take c).length = c := by
    simp only [List.length_take, List.length_drop]
    omega
  simp only [IsoTpRx.onFrame]
  rw [if_neg (by omega)]
  simp only [List.getD_cons_zero, hsn15, hb0, hpci]
  simp only [IsoTpRx.handleConsecutive, hand]
  rw [if_neg (by simp)]
  rw [if_neg (by simp [hand]), hlentake]
  rw [if_neg (by omega)]
  have hmin : min (1 + c - 1) (p.length - o) = c := by omega
  rw [hmin]
  rw [if_neg (by simp only [bufCap]; omega)]
  simp only [List.drop_succ_cons, List.drop_zero]
  rw [List.take_left' hchunklen, take_add_append]
  have hacclen : (p.take (o + c)).length = o + c := by
    simp only [List.length_take]
    omega
  rw [hacclen]
  rw [if_neg (by omega)]

/-- Feeding the remaining Consecutive Frames from a mid-transfer state:
all events are `None` except a final `Completed`, and the reassembler
ends `Idle` holding the full payload. -/
theorem feed_cf_frames (p : List Nat) (hcap : p.length ≤ 1024) :
    ∀ (fuel o sn : Nat), p.length - o ≤ fuel → o < p.length → sn < 16 →
      ∃ k s',
        feedTrace ⟨.Receiving, some p.length, p.take o, sn⟩
            (txFrames ⟨p, o, .FirstSent, sn⟩) =
          (s', List.replicate k (.ok .None) ++ [.ok (.Completed p.length)]) ∧
        s'.state = .Idle ∧ s'.acc = p ∧ s'.expectedLen = none := by
  intro fuel
  induction fuel with
  | zero => intro o sn hf ho hsn; omega
  | succ fuel ih =>
    intro o sn hf ho hsn
    have hc1 : 1 ≤ min (p.length - o) 7 := by omega
    have hc7 : min (p.length - o) 7 ≤ 7 := by omega
    have hco : o + min (p.length - o) 7 ≤ p.length := by omega
    rw [txFrames_next_some (next_firstSent p o sn ho)]
    simp only [feedTrace]
    rw [onFrame_cf p o sn (min (p.length - o) 7) ho hcap hsn hc1 hc7 hco]
    by_cases hdone : o + min (p.length - o) 7 = p.length
    · rw [if_pos hdone]
      rw [if_pos (by omega)]
      rw [txFrames_next_none (next_done p _ _)]
      simp only [feedTrace]
      refine ⟨0, ⟨.Idle, none, p.take (o + min (p.length - o) 7),
        (sn + 1) &&& 0xF⟩, ?_, rfl, ?_, rfl⟩
      · simp [hdone]
      · rw [hdone, List.take_length]
    · rw [if_neg hdone]
      rw [if_neg (by omega)]
      have hsn' : (sn + 1) &&& 0xF < 16 := by rw [and_fifteen_eq]; omega
      obtain ⟨k, s', heq, hst, hacc, hexp⟩ :=
        ih (o + min (p.length - o) 7) ((sn + 1) &&& 0xF) (by omega) (by omega)
          hsn'
      refine ⟨k + 1, s', ?_, hst, hacc, hexp⟩
      rw [heq]
      simp [List.replicate_succ]

end IsoTp

/-- Claim C2: for every payload of length `1..=1024`, feeding the frames
produced in order by `IsoTpTx::new(payload)` one-by-one into a fresh
`IsoTpRx` yields a trace in which every frame before the last yields
`FlowControlRequired` (the First Frame) or `None`, the last frame yields
the single `Completed(L)` event, and afterwards `payload()` equals the
original payload with the reassembler back in `Idle`. -/
theorem c2_isotp_tx_rx_roundtrip (p : List Nat) (hp : 1 ≤ p.length)
    (hcap : p.length ≤ 1024) :
    ∃ pre,
      (IsoTp.feedTrace IsoTp.IsoTpRx.new
          (IsoTp.txFrames (IsoTp.IsoTpTx.new p))).2 =
        pre ++ [.ok (.Completed p.length)] ∧
      (∀ e ∈ pre, e = .ok .FlowControlRequired ∨ e = .ok .None) ∧
      (IsoTp.feedTrace IsoTp.IsoTpRx.new
          (IsoTp.txFrames (IsoTp.IsoTpTx.new p))).1.state = .Idle ∧
      (IsoTp.feedTrace IsoTp.IsoTpRx.new
          (IsoTp.txFrames (IsoTp.IsoTpTx.new p))).1.payload = p := by
  by_cases h7 : p.length ≤ 7
  · rw [IsoTp.txFrames_next_some (IsoTp.next_new_sf p h7),
        IsoTp.txFrames_next_none (IsoTp.next_singleDone p 0 0)]
    simp only [IsoTp.feedTrace]
    rw [IsoTp.onFrame_sf p hp h7]
    exact ⟨[], by simp, by simp, rfl, rfl⟩
  · rw [IsoTp.txFrames_next_some (IsoTp.next_new_ff p (by omega))]
    simp only [IsoTp.feedTrace]
    rw [IsoTp.onFrame_ff p (by omega) hcap]
    obtain ⟨k, s', heq, hst, hacc, hexp⟩ :=
      IsoTp.feed_cf_frames p hcap p.length 6 1 (by omega) (by omega)
        (by decide)
    rw [heq]
    refine ⟨.ok .FlowControlRequired :: List.replicate k (.ok .None),
      by simp, ?_, hst, ?_⟩
    · intro e he
      rcases List.mem_cons.mp he with h | h
      · exact Or.inl h
      · exact Or.inr (List.eq_of_mem_replicate h)
    · simpa [IsoTp.IsoTpRx.payload] using hacc

/-- Witness for C2 at a concrete 11-byte payload (the spec's multi-frame
example). -/
theorem c2_isotp_tx_rx_roundtrip_witness :
    ∃ pre,
      (IsoTp.feedTrace IsoTp.IsoTpRx.new
          (IsoTp.txFrames (IsoTp.IsoTpTx.new
            [0, 1, 2, 3, 4, 5, 6, 7, 8, 9, 10]))).2 =
        pre ++ [.ok (.Completed (11 : Nat))] ∧
      (∀ e ∈ pre, e = .ok .FlowControlRequired ∨ e = .ok .None) ∧
      (IsoTp.feedTrace IsoTp.IsoTpRx.new
          (IsoTp.txFrames (IsoTp.IsoTpTx.new
            [0, 1, 2, 3, 4, 5, 6, 7, 8, 9, 10]))).1.state = .Idle ∧
      (IsoTp.feedTrace IsoTp.IsoTpRx.new
          (IsoTp.txFrames (IsoTp.IsoTpTx.new
            [0, 1, 2, 3, 4, 5, 6, 7, 8, 9, 10]))).1.payload =
        [0, 1, 2, 3, 4, 5, 6, 7, 8, 9, 10] :=
  c2_isotp_tx_rx_roundtrip [0, 1, 2, 3, 4, 5, 6, 7, 8, 9, 10]
    (by decide) (by decide)

/-! ## C5 — SoloConfig bit packing -/

/-- `a ||| b = a + b` when `a < 2^i` and `b = 2^i * b'`. -/
theorem or_collapse {a b : Nat} (i : Nat) (ha : a < 2 ^ i) (b' : Nat)
    (hb : b = 2 ^ i * b') : a ||| b = a + b := by
  subst hb
  rw [Nat.or_comm, or_eq_add_of_lt i b' ha]
  omega

/-- Inserting a middle bit field: `(A + 2^j * h) ||| (2^i * x)` with
`A < 2^i ≤ 2^j` and `x < 2^(j-i)` is plain addition. -/
theorem or_middle {A h x : Nat} (i j : Nat) (hA : A < 2 ^ i)
    (hx : x < 2 ^ (j - i)) (hij : i ≤ j) :
    (A + 2 ^ j * h) ||| 2 ^ i * x = A + 2 ^ i * x + 2 ^ j * h := by
  have hAj : A < 2 ^ j := lt_of_lt_of_le hA (Nat.pow_le_pow_right (by omega) hij)
  have hAx : A + 2 ^ i * x < 2 ^ j := by
    have h0 : 2 ^ i * (x + 1) = 2 ^ i * x + 2 ^ i := by ring
    have h2 : 2 ^ i * (x + 1) ≤ 2 ^ i * 2 ^ (j - i) :=
      Nat.mul_le_mul_left _ (by omega)
    have h3 : 2 ^ i * 2 ^ (j - i) = 2 ^ j := by
      rw [← Nat.pow_add]
      congr 1
      omega
    omega
  have e1 : A + 2 ^ j * h = 2 ^ j * h ||| A := by
    rw [or_eq_add_of_lt j h hAj]
    omega
  rw [e1, Nat.or_assoc, or_collapse i hA x rfl, Nat.or_comm]
  exact or_collapse j hAx h rfl

/-- The `config_word` or-chain of `SoloConfigDid::to_bytes`, as a plain
sum: the eleven bit fields are pairwise disjoint. -/
theorem pack_sum (a m ce d k1 l h2 k3 b r1 r2 : Nat)
    (ha : a < 4) (hm : m < 4) (hce : ce < 2) (hd : d < 4) (hk1 : k1 < 16)
    (hl : l < 16) (hh : h2 < 2) (hk3 : k3 < 16) (hb : b < 2) (hr1 : r1 < 4) :
    ((((((((((a ||| m * 2 ^ 2) ||| ce * 2 ^ 4) ||| d * 2 ^ 6) |||
        k1 * 2 ^ 8) ||| l * 2 ^ 12) ||| h2 * 2 ^ 23) ||| k3 * 2 ^ 16) |||
        b * 2 ^ 22) ||| r1 * 2 ^ 20) ||| r2 * 2 ^ 24) =
      a + 2 ^ 2 * m + 2 ^ 4 * ce + 2 ^ 6 * d + 2 ^ 8 * k1 + 2 ^ 12 * l +
        2 ^ 16 * k3 + 2 ^ 20 * r1 + 2 ^ 22 * b + 2 ^ 23 * h2 +
        2 ^ 24 * r2 := by
  have s1 : a ||| m * 2 ^ 2 = a + 2 ^ 2 * m := by
    rw [or_collapse 2 (by omega) m (by ring)]
    ring
  have s2 : a + 2 ^ 2 * m ||| ce * 2 ^ 4 = a + 2 ^ 2 * m + 2 ^ 4 * ce := by
    rw [or_collapse 4 (by omega) ce (by ring)]
    ring
  have s3 : a + 2 ^ 2 * m + 2 ^ 4 * ce ||| d * 2 ^ 6 =
      a + 2 ^ 2 * m + 2 ^ 4 * ce + 2 ^ 6 * d := by
    rw [or_collapse 6 (by omega) d (by ring)]
    ring
  have s4 : a + 2 ^ 2 * m + 2 ^ 4 * ce + 2 ^ 6 * d ||| k1 * 2 ^ 8 =
      a + 2 ^ 2 * m + 2 ^ 4 * ce + 2 ^ 6 * d + 2 ^ 8 * k1 := by
    rw [or_collapse 8 (by omega) k1 (by ring)]
    ring
  have s5 : a + 2 ^ 2 * m + 2 ^ 4 * ce + 2 ^ 6 * d + 2 ^ 8 * k1 |||
      l * 2 ^ 12 =
      a + 2 ^ 2 * m + 2 ^ 4 * ce + 2 ^ 6 * d + 2 ^ 8 * k1 + 2 ^ 12 * l := by
    rw [or_collapse 12 (by omega) l (by ring)]
    ring
  have s6 : a + 2 ^ 2 * m + 2 ^ 4 * ce + 2 ^ 6 * d + 2 ^ 8 * k1 +
      2 ^ 12 * l ||| h2 * 2 ^ 23 =
      a + 2 ^ 2 * m + 2 ^ 4 * ce + 2 ^ 6 * d + 2 ^ 8 * k1 + 2 ^ 12 * l +
        2 ^ 23 * h2 := by
    rw [or_collapse 23 (by omega) h2 (by ring)]
    ring
  have s7 : a + 2 ^ 2 * m + 2 ^ 4 * ce + 2 ^ 6 * d + 2 ^ 8 * k1 +
      2 ^ 12 * l + 2 ^ 23 * h2 ||| k3 * 2 ^ 16 =
      a + 2 ^ 2 * m + 2 ^ 4 * ce + 2 ^ 6 * d + 2 ^ 8 * k1 + 2 ^ 12 * l +
        2 ^ 16 * k3 + 2 ^ 23 * h2 := by
    rw [show k3 * 2 ^ 16 = 2 ^ 16 * k3 by ring]
    exact or_middle 16 23 (by omega)
      (by
        have h128 : (2 : Nat) ^ (23 - 16) = 128 := by norm_num
        omega)
      (by omega)
  have s8 : a + 2 ^ 2 * m + 2 ^ 4 * ce + 2 ^ 6 * d + 2 ^ 8 * k1 +
      2 ^ 12 * l + 2 ^ 16 * k3 + 2 ^ 23 * h2 ||| b * 2 ^ 22 =
      a + 2 ^ 2 * m + 2 ^ 4 * ce + 2 ^ 6 * d + 2 ^ 8 * k1 + 2 ^ 12 * l +
        2 ^ 16 * k3 + 2 ^ 22 * b + 2 ^ 23 * h2 := by
    rw [show b * 2 ^ 22 = 2 ^ 22 * b by ring]
    exact or_middle 22 23 (by omega)
      (by
        have h2' : (2 : Nat) ^ (23 - 22) = 2 := by norm_num
        omega)
      (by omega)
  have s9 : a + 2 ^ 2 * m + 2 ^ 4 * ce + 2 ^ 6 * d + 2 ^ 8 * k1 +
      2 ^ 12 * l + 2 ^ 16 * k3 + 2 ^ 22 * b + 2 ^ 23 * h2 ||| r1 * 2 ^ 20 =
      a + 2 ^ 2 * m + 2 ^ 4 * ce + 2 ^ 6 * d + 2 ^ 8 * k1 + 2 ^ 12 * l +
        2 ^ 16 * k3 + 2 ^ 20 * r1 + 2 ^ 22 * b + 2 ^ 23 * h2 := by
    rw [show a + 2 ^ 2 * m + 2 ^ 4 * ce + 2 ^ 6 * d + 2 ^ 8 * k1 +
          2 ^ 12 * l + 2 ^ 16 * k3 + 2 ^ 22 * b + 2 ^ 23 * h2 =
        (a + 2 ^ 2 * m + 2 ^ 4 * ce + 2 ^ 6 * d + 2 ^ 8 * k1 + 2 ^ 12 * l +
          2 ^ 16 * k3) + 2 ^ 22 * (b + 2 * h2) by ring]
    rw [show r1 * 2 ^ 20 = 2 ^ 20 * r1 by ring]
    rw [or_middle 20 22 (by omega)
      (by
        have h4 : (2 : Nat) ^ (22 - 20) = 4 := by norm_num
        omega)
      (by omega)]
    ring
  have s10 : a + 2 ^ 2 * m + 2 ^ 4 * ce + 2 ^ 6 * d + 2 ^ 8 * k1 +
      2 ^ 12 * l + 2 ^ 16 * k3 + 2 ^ 20 * r1 + 2 ^ 22 * b + 2 ^ 23 * h2 |||
      r2 * 2 ^ 24 =
      a + 2 ^ 2 * m + 2 ^ 4 * ce + 2 ^ 6 * d + 2 ^ 8 * k1 + 2 ^ 12 * l +
        2 ^ 16 * k3 + 2 ^ 20 * r1 + 2 ^ 22 * b + 2 ^ 23 * h2 +
        2 ^ 24 * r2 := by
    rw [or_collapse 24 (by omega) r2 (by ring)]
    ring
  rw [s1, s2, s3, s4, s5, s6, s7, s8, s9, s10]

namespace Did

theorem PPO2ControlMode.toNat_lt (m : PPO2ControlMode) : m.toNat < 4 := by
  cases m <;> decide

theorem PPO2ControlMode.fromU8_toNat (m : PPO2ControlMode) :
    PPO2ControlMode.fromU8 m.toNat = some m := by
  cases m <;> rfl

/-- The packed `config_word` as a plain sum of its bit fields. -/
theorem configWord_sum (c : SoloConfigDid) :
    c.configWord =
      (if c.calibration_procedure = .Monitored then 1 else 2) +
      2 ^ 2 * (c.ppo2_control_mode.toNat % 4) +
      2 ^ 4 * (if c.cell_mode = .ThreeCell then 1 else 0) +
      2 ^ 6 * (if c.depth_compensation_enabled then 1 else 2) +
      2 ^ 8 * ((c.solenoid_current_min_ma - 50) / 10 % 16) +
      2 ^ 12 * ((c.solenoid_current_max_ma - 50) / 10 % 32 % 16) +
      2 ^ 16 * (((if c.battery_voltage_doubling then
          c.battery_voltage_min / 2 ^ 1 else c.battery_voltage_min) - 50) /
          2 ^ 1 % 16) +
      2 ^ 20 * (c.reserved_bits_20_21 % 4) +
      2 ^ 22 * (if c.battery_voltage_doubling then 1 else 0) +
      2 ^ 23 * ((c.solenoid_current_max_ma - 50) / 10 % 32 / 2 ^ 4) +
      2 ^ 24 * c.reserved_bits_24_31 := by
  have hcell : ∀ w : Nat,
      (if c.cell_mode = .ThreeCell then w ||| (1 <<< 4) else w) =
        w ||| ((if c.cell_mode = CellMode.ThreeCell then 1 else 0) <<< 4) := by
    intro w
    split <;> simp
  have hdbl : ∀ w : Nat,
      (if c.battery_voltage_doubling then w ||| (1 <<< 22) else w) =
        w ||| ((if c.battery_voltage_doubling then 1 else 0) <<< 22) := by
    intro w
    split <;> simp
  have hdepth : ∀ w : Nat,
      (if c.depth_compensation_enabled then w ||| (1 <<< 6)
       else w ||| (2 <<< 6)) =
        w ||| ((if c.depth_compensation_enabled then 1 else 2) <<< 6) := by
    intro w
    split <;> rfl
  simp only [SoloConfigDid.configWord]
  rw [hcell, hdepth, hdbl]
  simp only [shiftL_mul, and_fifteen_eq, and_31_eq, and_three_eq, shiftR_div]
  exact pack_sum
    (if c.calibration_procedure = .Monitored then 1 else 2)
    (c.ppo2_control_mode.toNat % 4)
    (if c.cell_mode = CellMode.ThreeCell then 1 else 0)
    (if c.depth_compensation_enabled then 1 else 2)
    ((c.solenoid_current_min_ma - 50) / 10 % 16)
    ((c.solenoid_current_max_ma - 50) / 10 % 32 % 16)
    ((c.solenoid_current_max_ma - 50) / 10 % 32 / 2 ^ 4)
    (((if c.battery_voltage_doubling then c.battery_voltage_min / 2 ^ 1
        else c.battery_voltage_min) - 50) / 2 ^ 1 % 16)
    (if c.battery_voltage_doubling then 1 else 0)
    (c.reserved_bits_20_21 % 4)
    c.reserved_bits_24_31
    (by split <;> decide) (Nat.mod_lt _ (by decide))
    (by split <;> decide) (by split <;> decide)
    (Nat.mod_lt _ (by decide)) (Nat.mod_lt _ (by decide))
    (by
      have := Nat.mod_lt ((c.solenoid_current_max_ma - 50) / 10)
        (show 0 < 32 by decide)
      omega)
    (Nat.mod_lt _ (by decide)) (by split <;> decide)
    (Nat.mod_lt _ (by decide))

/-- Bit-field extraction from the packed sum. -/
theorem word_extract (a m ce d k1 l h2 k3 b r1 r2 W : Nat)
    (ha : a < 4) (hm : m < 4) (hce : ce < 2) (hd : d < 4) (hk1 : k1 < 16)
    (hl : l < 16) (hh : h2 < 2) (hk3 : k3 < 16) (hb : b < 2) (hr1 : r1 < 4)
    (hr2 : r2 < 256)
    (hW : W = a + 2 ^ 2 * m + 2 ^ 4 * ce + 2 ^ 6 * d + 2 ^ 8 * k1 +
      2 ^ 12 * l + 2 ^ 16 * k3 + 2 ^ 20 * r1 + 2 ^ 22 * b + 2 ^ 23 * h2 +
      2 ^ 24 * r2) :
    W % 4 = a ∧ W / 2 ^ 2 % 4 = m ∧ W / 2 ^ 4 % 4 = ce ∧
    W / 2 ^ 6 % 4 = d ∧ W / 2 ^ 8 % 16 = k1 ∧ W / 2 ^ 12 % 16 = l ∧
    W / 2 ^ 23 % 2 = h2 ∧ W / 2 ^ 16 % 16 = k3 ∧ W / 2 ^ 22 % 2 = b ∧
    W / 2 ^ 20 % 4 = r1 ∧ W / 2 ^ 24 % 256 = r2 ∧ W < 2 ^ 32 := by
  subst hW
  refine ⟨by omega, by omega, by omega, by omega, by omega, by omega,
    by omega, by omega, by omega, by omega, by omega, by omega⟩


/-- Recombining the big-endian bytes of a 32-bit word. -/
theorem be32_recombine (W : Nat) (h : W < 2 ^ 32) :
    W / 2 ^ 24 % 256 * 2 ^ 24 + W / 2 ^ 16 % 256 * 2 ^ 16 +
      W / 2 ^ 8 % 256 * 2 ^ 8 + W % 256 = W := by
  omega

/-- Round trip of the SoloConfig bit packing on in-range
configurations. -/
theorem tryFrom_toBytes (c : SoloConfigDid) (hin : c.InRange) :
    SoloConfigDid.tryFrom c.toBytes = .ok c := by
  obtain ⟨cal, mode, cell, depth, minma, maxma, batt, dbl, r1, r2⟩ := c
  simp only [SoloConfigDid.InRange] at hin
  obtain ⟨⟨k1, hk1, hmin⟩, ⟨k2, hk2, hmax⟩, hbattR, hr1, hr2⟩ := hin
  have hword := configWord_sum ⟨cal, mode, cell, depth, minma, maxma, batt,
    dbl, r1, r2⟩
  simp only at hword hbattR hr1 hr2 hmin hmax
  have e1 : (minma - 50) / 10 % 16 = k1 := by rw [hmin]; omega
  have e2 : (maxma - 50) / 10 % 32 % 16 = k2 % 16 := by rw [hmax]; omega
  have e3 : (maxma - 50) / 10 % 32 / 2 ^ 4 = k2 / 16 := by rw [hmax]; omega
  have er1 : r1 % 4 = r1 := Nat.mod_eq_of_lt hr1
  rw [e1, e2, e3, er1] at hword
  cases dbl
  case false =>
    simp only [Bool.false_eq_true, if_false] at hword hbattR
    obtain ⟨kb, hkb, hbatt⟩ := hbattR
    have eb : (batt - 50) / 2 ^ 1 % 16 = kb := by rw [hbatt]; omega
    rw [eb] at hword
    obtain ⟨x0, x1, x2, x3, x4, x5, x6, x7, x8, x9, x10, x11⟩ :=
      word_extract (if cal = CalibrationProcedure.Monitored then 1 else 2)
        (mode.toNat % 4) (if cell = CellMode.ThreeCell then 1 else 0)
        (if depth = true then 1 else 2) k1 (k2 % 16) (k2 / 16) kb 0 r1 r2 _
        (by split <;> decide) (Nat.mod_lt _ (by decide))
        (by split <;> decide) (by split <;> decide) hk1
        (Nat.mod_lt _ (by decide)) (by omega) hkb (by decide) hr1 hr2 rfl
    simp only [SoloConfigDid.toBytes]
    generalize hg : SoloConfigDid.configWord
      ⟨cal, mode, cell, depth, minma, maxma, batt, false, r1, r2⟩ = W
    rw [hg] at hword
    rw [← hword] at x0 x1 x2 x3 x4 x5 x6 x7 x8 x9 x10 x11
    simp only [Divecan.be32, SoloConfigDid.tryFrom]
    rw [if_neg (by simp)]
    simp only [List.getD_cons_zero, List.getD_cons_succ]
    simp only [be32_recombine W x11]
    simp only [shiftR_div, and_three_eq, and_fifteen_eq, and_one_eq,
      and_255_eq]
    simp only [x0, x1, x2, x3, x4, x5, x6, x7, x8, x9, x10]
    simp only [Nat.mod_eq_of_lt (PPO2ControlMode.toNat_lt mode),
      PPO2ControlMode.fromU8_toNat]
    simp only [Except.ok.injEq, SoloConfigDid.mk.injEq]
    have hor : (k2 / 16) <<< 4 ||| k2 % 16 = k2 := by
      rw [shiftL_mul, Nat.mul_comm, or_eq_add_of_lt 4 (k2 / 16) (by omega)]
      omega
    refine ⟨?_, trivial, ?_, ?_, by omega, ?_, ?_, by simp, trivial, trivial⟩
    · cases cal <;> simp
    · cases cell <;> simp
    · cases depth <;> simp
    · rw [hor]
      omega
    · norm_num [shiftL_mul]
      omega
  case true =>
    simp only [eq_self_iff_true, if_true] at hword hbattR
    obtain ⟨kb, hkb, hbatt⟩ := hbattR
    have eb : (batt / 2 ^ 1 - 50) / 2 ^ 1 % 16 = kb := by rw [hbatt]; omega
    rw [eb] at hword
    obtain ⟨x0, x1, x2, x3, x4, x5, x6, x7, x8, x9, x10, x11⟩ :=
      word_extract (if cal = CalibrationProcedure.Monitored then 1 else 2)
        (mode.toNat % 4) (if cell = CellMode.ThreeCell then 1 else 0)
        (if depth = true then 1 else 2) k1 (k2 % 16) (k2 / 16) kb 1 r1 r2 _
        (by split <;> decide) (Nat.mod_lt _ (by decide))
        (by split <;> decide) (by split <;> decide) hk1
        (Nat.mod_lt _ (by decide)) (by omega) hkb (by decide) hr1 hr2 rfl
    simp only [SoloConfigDid.toBytes]
    generalize hg : SoloConfigDid.configWord
      ⟨cal, mode, cell, depth, minma, maxma, batt, true, r1, r2⟩ = W
    rw [hg] at hword
    rw [← hword] at x0 x1 x2 x3 x4 x5 x6 x7 x8 x9 x10 x11
    simp only [Divecan.be32, SoloConfigDid.tryFrom]
    rw [if_neg (by simp)]
    simp only [List.getD_cons_zero, List.getD_cons_succ]
    simp only [be32_recombine W x11]
    simp only [shiftR_div, and_three_eq, and_fifteen_eq, and_one_eq,
      and_255_eq]
    simp only [x0, x1, x2, x3, x4, x5, x6, x7, x8, x9, x10]
    simp only [Nat.mod_eq_of_lt (PPO2ControlMode.toNat_lt mode),
      PPO2ControlMode.fromU8_toNat]
    simp only [Except.ok.injEq, SoloConfigDid.mk.injEq]
    have hor : (k2 / 16) <<< 4 ||| k2 % 16 = k2 := by
      rw [shiftL_mul, Nat.mul_comm, or_eq_add_of_lt 4 (k2 / 16) (by omega)]
      omega
    refine ⟨?_, trivial, ?_, ?_, by omega, ?_, ?_, by simp, trivial, trivial⟩
    · cases cal <;> simp
    · cases cell <;> simp
    · cases depth <;> simp
    · rw [hor]
      omega
    · norm_num [shiftL_mul]
      omega

end Did

/-- C5: SoloConfigDid packing is a bijection on representable
configurations: for every `SoloConfigDid` whose fields lie within the
constrained ranges of the bit layout (`InRange`),
`try_from (to_bytes c)` returns `Ok c`; moreover the golden bytes
`8A FC 36 56` decode to the configuration with
`battery_voltage_min = 148`, and re-encoding that configuration yields
exactly `8A FC 36 56`. -/
theorem c5_soloconfig_pack_bijection (c : Did.SoloConfigDid)
    (hin : c.InRange) :
    Did.SoloConfigDid.tryFrom c.toBytes = .ok c ∧
    Did.SoloConfigDid.tryFrom [0x8A, 0xFC, 0x36, 0x56] =
      .ok ⟨.Direct, .Manual, .ThreeCell, true, 110, 240, 148, true,
           3, 0x8A⟩ ∧
    (Did.SoloConfigDid.mk .Direct .Manual .ThreeCell true 110 240 148 true
        3 0x8A).battery_voltage_min = 148 ∧
    Did.SoloConfigDid.toBytes
      ⟨.Direct, .Manual, .ThreeCell, true, 110, 240, 148, true, 3, 0x8A⟩ =
      [0x8A, 0xFC, 0x36, 0x56] :=
  ⟨Did.tryFrom_toBytes c hin, by rfl, rfl, by rfl⟩

/-- Witness for C5 at the golden-vector configuration. -/
theorem c5_soloconfig_pack_bijection_witness :
    Did.SoloConfigDid.InRange
      ⟨.Direct, .Manual, .ThreeCell, true, 110, 240, 148, true, 3, 0x8A⟩ ∧
    Did.SoloConfigDid.tryFrom
      (Did.SoloConfigDid.toBytes
        ⟨.Direct, .Manual, .ThreeCell, true, 110, 240, 148, true, 3, 0x8A⟩) =
      .ok ⟨.Direct, .Manual, .ThreeCell, true, 110, 240, 148, true,
           3, 0x8A⟩ :=
  ⟨⟨⟨6, by decide, rfl⟩, ⟨19, by decide, rfl⟩, ⟨12, by decide, rfl⟩,
      by decide, by decide⟩,
    (c5_soloconfig_pack_bijection
      ⟨.Direct, .Manual, .ThreeCell, true, 110, 240, 148, true, 3, 0x8A⟩
      ⟨⟨6, by decide, rfl⟩, ⟨19, by decide, rfl⟩, ⟨12, by decide, rfl⟩,
        by decide, by decide⟩).1⟩

/-! ## C6 / C7 — UDS client sessions -/

namespace Uds

/-- Computation of `transact::<TransferDataCodec>` when the transport
answers with a well-formed positive TransferData response. -/
theorem transact_td_ok {ε : Type} (transport : List Nat → Except ε (List Nat))
    (txCap rxCap n : Nat) (data tail : List Nat) (g : Nat)
    (henc : 3 + data.length ≤ txCap)
    (hresp : transport ([0x00, 0x36, n] ++ data) = .ok (0x00 :: 0x76 :: g :: tail))
    (hrx : 3 + tail.length ≤ rxCap) :
    transactTransferData transport txCap rxCap n data = .ok (g, tail) := by
  have h1 : (UdsPduWriter.new txCap).setHeader 0x36 =
      .ok ⟨txCap, [0x00, 0x36]⟩ := by
    simp only [UdsPduWriter.setHeader, UdsPduWriter.new]
    rw [if_neg (by omega)]
  have h2 : UdsPduWriter.push ⟨txCap, [0x00, 0x36]⟩ [n] =
      .ok ⟨txCap, [0x00, 0x36, n]⟩ := by
    simp only [UdsPduWriter.push]
    rw [if_neg (by simp; omega)]
    rfl
  have h3 : UdsPduWriter.push ⟨txCap, [0x00, 0x36, n]⟩ data =
      .ok ⟨txCap, [0x00, 0x36, n] ++ data⟩ := by
    simp only [UdsPduWriter.push]
    rw [if_neg (by simp; omega)]
  have hcp : checkPositive (0x00 :: 0x76 :: g :: tail) = .ok () := by
    simp [checkPositive]
  have hdec : decodeTransferDataResp (0x00 :: 0x76 :: g :: tail) =
      .ok (g, tail) := by
    simp only [decodeTransferDataResp, expectSid, List.length_cons]
    rw [if_neg (by omega), if_neg (by simp)]
    simp [List.getD]
  simp only [transactTransferData, encodeTransferDataReq, bind, Except.bind,
    h1, h2, h3, hresp, hcp, hdec]
  rw [if_neg (by simp; omega)]

end Uds

/-- Claim C6: for a `DownloadSession` whose pending counter is `n`, a
TransferData response echoing a block counter `g ≠ n` makes `send_block`
fail with `WrongBlockCounter{expected: n, got: g}` leaving `next_block`
at `n`; a response echoing exactly `n` succeeds and `next_block` becomes
`(n + 1) mod 256`. -/
theorem c6_send_block_counter {ε : Type}
    (transport : List Nat → Except ε (List Nat)) (txCap rxCap n g : Nat)
    (data tail : List Nat) (henc : 3 + data.length ≤ txCap)
    (hresp : transport ([0x00, 0x36, n] ++ data) =
      .ok (0x00 :: 0x76 :: g :: tail))
    (hrx : 3 + tail.length ≤ rxCap) :
    (g ≠ n → Uds.sendBlock transport txCap rxCap n data =
      (.error (.Protocol (.WrongBlockCounter n g)), n)) ∧
    (g = n → Uds.sendBlock transport txCap rxCap n data =
      (.ok (), (n + 1) % 256)) := by
  have ht := Uds.transact_td_ok transport txCap rxCap n data tail g henc hresp hrx
  constructor
  · intro hne
    simp [Uds.sendBlock, ht, hne]
  · intro heq
    subst heq
    simp [Uds.sendBlock, ht]

/-- Witness for C6: a wrong echo (2 instead of 1) and a correct echo,
each at a concrete transport. -/
theorem c6_send_block_counter_witness :
    ((Uds.sendBlock (ε := Unit) (fun _ => .ok [0x00, 0x76, 2]) 8 8 1 [0xAB] =
        (.error (.Protocol (.WrongBlockCounter 1 2)), 1))) ∧
    ((Uds.sendBlock (ε := Unit) (fun _ => .ok [0x00, 0x76, 1]) 8 8 1 [0xAB] =
        (.ok (), 2))) := by
  constructor
  · exact (c6_send_block_counter (fun _ => .ok [0x00, 0x76, 2]) 8 8 1 2 [0xAB] []
      (by decide) rfl (by decide)).1 (by decide)
  · exact (c6_send_block_counter (fun _ => .ok [0x00, 0x76, 1]) 8 8 1 1 [0xAB] []
      (by decide) rfl (by decide)).2 rfl

/-- Claim C7: `UploadSession::read_block` returns `Ok(0)` without
consulting the transport when `transferred ≥ total_size` (the conclusion
holds for an arbitrary transport oracle, which the first conjunct
quantifies over); and when the TransferData response echoes the correct
block counter with an empty payload, it returns `Ok(0)` leaving
`next_block`, `transferred`, and the caller's output buffer unchanged. -/
theorem c7_read_block_empty {ε : Type} (txCap rxCap : Nat)
    (s : Uds.UploadSession) (out : List Nat) :
    (s.totalSize ≤ s.transferred →
      ∀ transport : List Nat → Except ε (List Nat),
        Uds.readBlock transport txCap rxCap s out = (.ok 0, s, out)) ∧
    (∀ transport : List Nat → Except ε (List Nat),
      s.transferred < s.totalSize → 3 ≤ txCap → 3 ≤ rxCap →
      transport [0x00, 0x36, s.nextBlock] = .ok [0x00, 0x76, s.nextBlock] →
      Uds.readBlock transport txCap rxCap s out = (.ok 0, s, out)) := by
  constructor
  · intro hdone transport
    simp only [Uds.readBlock]
    rw [if_pos (by omega)]
  · intro transport hlt htx hrx hresp
    have ht := Uds.transact_td_ok transport txCap rxCap s.nextBlock [] []
      s.nextBlock (by simpa using htx) (by simpa using hresp)
      (by simpa using hrx)
    simp only [Uds.readBlock]
    rw [if_neg (by omega)]
    simp [ht]

/-- Witness for C7: both conjuncts at concrete sessions. -/
theorem c7_read_block_empty_witness :
    (Uds.readBlock (ε := Unit) (fun _ => .error ()) 8 8 ⟨1, 4, 4⟩ [9, 9] =
      (.ok 0, ⟨1, 4, 4⟩, [9, 9])) ∧
    (Uds.readBlock (ε := Unit) (fun _ => .ok [0x00, 0x76, 1]) 8 8 ⟨1, 4, 0⟩ [9, 9] =
      (.ok 0, ⟨1, 4, 0⟩, [9, 9])) := by
  constructor
  · exact (c7_read_block_empty 8 8 ⟨1, 4, 4⟩ [9, 9]).1 (by decide) _
  · exact (c7_read_block_empty 8 8 ⟨1, 4, 0⟩ [9, 9]).2 _ (by decide) (by decide)
      (by decide) rfl

/-! ## C1 — DiveCAN message codec -/

namespace Divecan

/-- Recombining a big-endian `u16`. -/
theorem hi_lo (x : Nat) (h : x < 65536) : hi8 x * 256 + lo8 x = x := by
  simp only [hi8, lo8]; omega

theorem getD_replicate_zero (k j : Nat) :
    (List.replicate k (0 : Nat)).getD j 0 = 0 := by
  induction k generalizing j with
  | zero => simp [List.getD]
  | succ k ih =>
    cases j with
    | zero => rfl
    | succ j => exact ih j

/-- Any index at or past the real bytes of a zero-padded buffer reads 0. -/
theorem getD_append_zero (l : List Nat) (k j : Nat) (h : l.length ≤ j) :
    (l ++ List.replicate k 0).getD j 0 = 0 := by
  induction l generalizing j with
  | nil => exact getD_replicate_zero k j
  | cons a l ih =>
    cases j with
    | zero => exact absurd h (by simp)
    | succ j => exact ih j (by simpa using h)

theorem take_length_append (l r : List Nat) : (l ++ r).take l.length = l := by
  induction l with
  | nil => rfl
  | cons a l ih => simpa using ih

/-- A list of length three is literally a three-element list. -/
theorem list_len_three (l : List Nat) (h : l.length = 3) :
    ∃ a b c, l = [a, b, c] := by
  match l, h with
  | [a, b, c], _ => exact ⟨a, b, c, rfl⟩

/-- `ShutdownReason` wire round trip for canonical values. -/
theorem ShutdownReason.fromU8_wire_round (r : ShutdownReason)
    (h : ∀ v, r = .Unknown v → v ≠ 0x00 ∧ v ≠ 0x01) :
    ShutdownReason.fromU8 r.toU8 = r := by
  cases r
  case Unknown v =>
    obtain ⟨h0, h1⟩ := h v rfl
    simp only [ShutdownReason.toU8, ShutdownReason.fromU8]
    rw [if_neg h0, if_neg h1]
  all_goals rfl

/-- `Consensus` wire round trip for canonical values. -/
theorem Consensus.consensus_wire_round (c : Consensus)
    (h : ∀ v, c = .PpO2 v → v ≠ 0xfe ∧ v ≠ 0xff) :
    Consensus.fromU8 c.toU8 = c := by
  cases c
  case PpO2 v =>
    obtain ⟨hfe, hff⟩ := h v rfl
    simp only [Consensus.toU8, Consensus.fromU8]
    rw [if_neg hff, if_neg hfe]
  all_goals rfl

/-- `CalStatusCode` wire round trip for canonical values. -/
theorem CalStatusCode.fromByte_toByte (s : CalStatusCode)
    (h : ∀ v, s = .Unknown v →
      v ≠ 0x01 ∧ v ≠ 0x05 ∧ v ≠ 0x08 ∧ v ≠ 0x10 ∧ v ≠ 0x18 ∧
      v ≠ 0x20 ∧ v ≠ 0x28) :
    CalStatusCode.fromByte s.toByte = s := by
  cases s
  case Unknown v =>
    obtain ⟨h1, h2, h3, h4, h5, h6, h7⟩ := h v rfl
    simp only [CalStatusCode.toByte, CalStatusCode.fromByte]
    rw [if_neg h1, if_neg h2, if_neg h3, if_neg h4, if_neg h5, if_neg h6,
      if_neg h7]
  all_goals rfl

/-- Packing the two 2-bit alert fields of `SoloStatus` byte 7 and reading
them back is the identity, for all 16 alert combinations. -/
theorem alert_bits (va : Option VoltageAlert) (ca : Option CurrentAlert) :
    VoltageAlert.from2bitOpt
        (((VoltageAlert.to2bitOpt va &&& 3) |||
            ((CurrentAlert.to2bitOpt ca &&& 3) <<< 2)) &&& 3) = va ∧
      CurrentAlert.from2bitOpt
        ((((VoltageAlert.to2bitOpt va &&& 3) |||
            ((CurrentAlert.to2bitOpt ca &&& 3) <<< 2)) &&& 12) >>> 2) = ca := by
  rcases va with _ | x
  · rcases ca with _ | y
    · decide
    · cases y <;> decide
  · rcases ca with _ | y
    · cases x <;> decide
    · cases x <;> cases y <;> decide

end Divecan

/-- C1 counterexample: `ShutdownInit(Unknown 0)` encodes to wire byte
`0x00`, which decodes back as `ShutdownInit(UserInitiated)` — a different
`Msg` value — so `try_from_frame ∘ to_frame` is not the identity on every
variant with its carried data. -/
theorem c1_counterexample :
    Divecan.Msg.tryFromFrame
        (Divecan.Msg.toFrame (.ShutdownInit (.Unknown 0))) =
      .ok (.ShutdownInit .UserInitiated) ∧
    Divecan.Msg.ShutdownInit (.Unknown 0) ≠
      Divecan.Msg.ShutdownInit .UserInitiated :=
  ⟨rfl, by decide⟩

/-- C1 (amended): for every well-formed `Msg` value `m`, `to_frame`
produces a frame whose `dlc` equals the variant's declared DLC and whose
8-byte payload has every byte at or past `dlc` equal to zero; and for
every canonical `m` (the escape variants `ShutdownReason::Unknown`,
`CalStatusCode::Unknown` and `Consensus::PpO2` do not collide with a
named variant's wire byte), `try_from_frame (to_frame m) = Ok m`. -/
theorem c1_msg_frame_roundtrip (m : Divecan.Msg) (hwf : m.WF) :
    m.toFrame.dlc = m.dlc ∧
    m.toFrame.data.length = 8 ∧
    (∀ i, m.dlc ≤ i → i < 8 → m.toFrame.data.getD i 0 = 0) ∧
    (m.Canonical → Divecan.Msg.tryFromFrame m.toFrame = .ok m) := by
  cases m with
  | Id a u v =>
    exact ⟨rfl, rfl, fun i h1 h2 => by
      have h1' : (3 : Nat) ≤ i := h1; interval_cases i <;> rfl,
      fun _ => rfl⟩
  | DeviceName name =>
    exact ⟨rfl, hwf, fun i h1 h2 => by
      have h1' : (8 : Nat) ≤ i := h1; omega, fun _ => rfl⟩
  | Alert unknown code details =>
    obtain ⟨hu, hc, hlen⟩ := hwf
    refine ⟨rfl, by simp [Divecan.Msg.toFrame, Divecan.Msg.frameData]; omega,
      fun i h1 h2 => ?_, fun hcan => ?_⟩
    · have h1' : 3 + details.length ≤ i := h1
      obtain ⟨j, rfl⟩ : ∃ j, i = j + 3 := ⟨i - 3, by omega⟩
      show (details ++ List.replicate (5 - details.length) 0).getD j 0 = 0
      exact Divecan.getD_append_zero details _ j (by omega)
    · simp only [Divecan.Msg.toFrame, Divecan.Msg.tryFromFrame,
        Divecan.Msg.frameData, Divecan.Msg.kind, Divecan.Msg.dlc,
        Divecan.Msg.dlcMinSize]
      rw [if_neg (by omega)]
      simp only [List.getD_cons_zero, List.getD_cons_succ,
        List.drop_succ_cons, List.drop_zero]
      rw [show 3 + details.length - 3 = details.length from by omega,
        Divecan.take_length_append details _]
      simp only [Divecan.alertNew]
      rw [if_neg (by omega), Divecan.hi_lo code hc]
  | ShutdownInit r =>
    refine ⟨rfl, rfl, fun i h1 h2 => by
        have h1' : (1 : Nat) ≤ i := h1; interval_cases i <;> rfl,
      fun hcan => ?_⟩
    have hr : Divecan.ShutdownReason.fromU8 r.toU8 = r :=
      Divecan.ShutdownReason.fromU8_wire_round r (fun v hv => by subst hv; exact hcan)
    show Except.ok (Divecan.Msg.ShutdownInit
      (Divecan.ShutdownReason.fromU8 r.toU8)) = _
    rw [hr]
  | CellPpo2 cells =>
    obtain ⟨a, b, c, rfl⟩ := Divecan.list_len_three cells hwf
    exact ⟨rfl, rfl, fun i h1 h2 => by
      have h1' : (4 : Nat) ≤ i := h1; interval_cases i <;> rfl,
      fun _ => rfl⟩
  | OboeStatus ok bv b2 b3 b4 =>
    cases ok <;>
      exact ⟨rfl, rfl, fun i h1 h2 => by
        have h1' : (5 : Nat) ≤ i := h1; interval_cases i <;> rfl,
        fun _ => rfl⟩
  | AmbientPressure s c dc =>
    obtain ⟨hs, hc⟩ := hwf
    cases dc <;>
      exact ⟨rfl, rfl, fun i h1 h2 => by
          have h1' : (5 : Nat) ≤ i := h1; interval_cases i <;> rfl,
        fun _ => by
          conv_rhs => rw [← Divecan.hi_lo s hs, ← Divecan.hi_lo c hc]
          rfl⟩
  | Uds raw =>
    exact ⟨rfl, hwf, fun i h1 h2 => by
      have h1' : (8 : Nat) ≤ i := h1; omega, fun _ => rfl⟩
  | TankPressure cyl p =>
    obtain ⟨h1, h2⟩ := hwf
    exact ⟨rfl, rfl, fun i hi1 hi2 => by
        have hi1' : (3 : Nat) ≤ i := hi1; interval_cases i <;> rfl,
      fun _ => by
        conv_rhs => rw [← Divecan.hi_lo p h2]
        rfl⟩
  | Nop =>
    exact ⟨rfl, rfl, fun i h1 h2 => by
      have h1' : (8 : Nat) ≤ i := h1; omega, fun _ => rfl⟩
  | CellVoltages cv unused =>
    obtain ⟨hlen, hb, hu⟩ := hwf
    obtain ⟨v0, v1, v2, rfl⟩ := Divecan.list_len_three cv hlen
    have hb0 : v0 < 65536 := hb v0 (by simp)
    have hb1 : v1 < 65536 := hb v1 (by simp)
    have hb2 : v2 < 65536 := hb v2 (by simp)
    exact ⟨rfl, rfl, fun i h1 h2 => by
        have h1' : (7 : Nat) ≤ i := h1; interval_cases i <;> rfl,
      fun _ => by
        conv_rhs => rw [← Divecan.hi_lo v0 hb0, ← Divecan.hi_lo v1 hb1,
          ← Divecan.hi_lo v2 hb2]
        rfl⟩
  | Ppo2CalibrationResponse status cv fo2 p ca =>
    obtain ⟨hs, hlen, hf, hp, hca⟩ := hwf
    obtain ⟨a, b, c, rfl⟩ := Divecan.list_len_three cv hlen
    refine ⟨rfl, rfl, fun i h1 h2 => by
        have h1' : (8 : Nat) ≤ i := h1; omega, fun hcan => ?_⟩
    have hst : Divecan.CalStatusCode.fromByte status.toByte = status :=
      Divecan.CalStatusCode.fromByte_toByte status
        (fun v hv => by subst hv; exact hcan)
    have hcab : Divecan.cellsActiveFromU8 ca = ca := by
      simp only [Divecan.cellsActiveFromU8, and_seven_eq]; omega
    show Except.ok (Divecan.Msg.Ppo2CalibrationResponse
        (Divecan.CalStatusCode.fromByte status.toByte) [a, b, c] fo2
        (Divecan.hi8 p * 256 + Divecan.lo8 p)
        (Divecan.cellsActiveFromU8 ca)) = _
    rw [hst, Divecan.hi_lo p hp, hcab]
  | Ppo2CalibrationRequest fo2 p =>
    obtain ⟨h1, h2⟩ := hwf
    exact ⟨rfl, rfl, fun i hi1 hi2 => by
        have hi1' : (3 : Nat) ≤ i := hi1; interval_cases i <;> rfl,
      fun _ => by
        conv_rhs => rw [← Divecan.hi_lo p h2]
        rfl⟩
  | Co2Enabled b =>
    cases b <;>
      exact ⟨rfl, rfl, fun i h1 h2 => by
        have h1' : (1 : Nat) ≤ i := h1; interval_cases i <;> rfl,
        fun _ => rfl⟩
  | Co2 unknown pco2 =>
    obtain ⟨h1, h2⟩ := hwf
    exact ⟨rfl, rfl, fun i hi1 hi2 => by
        have hi1' : (3 : Nat) ≤ i := hi1; interval_cases i <;> rfl,
      fun _ => by
        conv_rhs => rw [← Divecan.hi_lo pco2 h2]
        rfl⟩
  | Co2CalibrationResponse code pco2 =>
    obtain ⟨h1, h2⟩ := hwf
    exact ⟨rfl, rfl, fun i hi1 hi2 => by
        have hi1' : (3 : Nat) ≤ i := hi1; interval_cases i <;> rfl,
      fun _ => by
        conv_rhs => rw [← Divecan.hi_lo pco2 h2]
        rfl⟩
  | Co2CalibrationRequest pco2 =>
    exact ⟨rfl, rfl, fun i hi1 hi2 => by
        have hi1' : (2 : Nat) ≤ i := hi1; interval_cases i <;> rfl,
      fun _ => by
        conv_rhs => rw [← Divecan.hi_lo pco2 hwf]
        rfl⟩
  | Undocumented30 raw =>
    obtain ⟨a, b, c, rfl⟩ := Divecan.list_len_three raw hwf
    exact ⟨rfl, rfl, fun i h1 h2 => by
      have h1' : (3 : Nat) ≤ i := h1; interval_cases i <;> rfl,
      fun _ => rfl⟩
  | BusInit unused =>
    obtain ⟨a, b, c, rfl⟩ := Divecan.list_len_three unused hwf
    exact ⟨rfl, rfl, fun i h1 h2 => by
      have h1' : (3 : Nat) ≤ i := h1; interval_cases i <;> rfl,
      fun _ => rfl⟩
  | TempProbe sid temp =>
    obtain ⟨h1, h2⟩ := hwf
    exact ⟨rfl, rfl, fun i hi1 hi2 => by
        have hi1' : (3 : Nat) ≤ i := hi1; interval_cases i <;> rfl,
      fun _ => by
        conv_rhs => rw [← Divecan.hi_lo temp h2]
        rfl⟩
  | UndocumentedC3 u1 u2 u3 u4 =>
    obtain ⟨h1, h2, h3, h4⟩ := hwf
    exact ⟨rfl, rfl, fun i hi1 hi2 => by
        have hi1' : (6 : Nat) ≤ i := hi1; interval_cases i <;> rfl,
      fun _ => by
        conv_rhs => rw [← Divecan.hi_lo u1 h1, ← Divecan.hi_lo u2 h2]
        rfl⟩
  | TempProbeEnabled b =>
    cases b <;>
      exact ⟨rfl, rfl, fun i h1 h2 => by
        have h1' : (1 : Nat) ≤ i := h1; interval_cases i <;> rfl,
        fun _ => rfl⟩
  | Setpoint v =>
    exact ⟨rfl, rfl, fun i h1 h2 => by
      have h1' : (1 : Nat) ≤ i := h1; interval_cases i <;> rfl,
      fun _ => rfl⟩
  | CellStatus ca consensus =>
    obtain ⟨hca, hcons⟩ := hwf
    refine ⟨rfl, rfl, fun i h1 h2 => by
        have h1' : (2 : Nat) ≤ i := h1; interval_cases i <;> rfl,
      fun hcan => ?_⟩
    have h1 : Divecan.cellsActiveFromU8 ca = ca := by
      simp only [Divecan.cellsActiveFromU8, and_seven_eq]; omega
    have h2 : Divecan.Consensus.fromU8 consensus.toU8 = consensus :=
      Divecan.Consensus.consensus_wire_round consensus
        (fun v hv => by subst hv; exact hcan)
    show Except.ok (Divecan.Msg.CellStatus (Divecan.cellsActiveFromU8 ca)
      (Divecan.Consensus.fromU8 consensus.toU8)) = _
    rw [h1, h2]
  | SoloStatus voltage current inj setpoint consensus va ca =>
    obtain ⟨hv, hcur, hinj, hsp, hcons⟩ := hwf
    refine ⟨rfl, rfl, fun i h1 h2 => by
        have h1' : (8 : Nat) ≤ i := h1; omega, fun hcan => ?_⟩
    have h2 : Divecan.Consensus.fromU8 consensus.toU8 = consensus :=
      Divecan.Consensus.consensus_wire_round consensus
        (fun v hv => by subst hv; exact hcan)
    show Except.ok (Divecan.Msg.SoloStatus voltage
        (Divecan.hi8 current * 256 + Divecan.lo8 current)
        (Divecan.hi8 inj * 256 + Divecan.lo8 inj) setpoint
        (Divecan.Consensus.fromU8 consensus.toU8)
        (Divecan.VoltageAlert.from2bitOpt
          (((Divecan.VoltageAlert.to2bitOpt va &&& 3) |||
            ((Divecan.CurrentAlert.to2bitOpt ca &&& 3) <<< 2)) &&& 3))
        (Divecan.CurrentAlert.from2bitOpt
          ((((Divecan.VoltageAlert.to2bitOpt va &&& 3) |||
            ((Divecan.CurrentAlert.to2bitOpt ca &&& 3) <<< 2)) &&& 12)
            >>> 2))) = _
    rw [Divecan.hi_lo current hcur, Divecan.hi_lo inj hinj, h2,
      (Divecan.alert_bits va ca).1, (Divecan.alert_bits va ca).2]
  | Diving status dn ts =>
    obtain ⟨h1, h2, h3⟩ := hwf
    refine ⟨rfl, rfl, fun i hi1 hi2 => by
        have hi1' : (7 : Nat) ≤ i := hi1; interval_cases i <;> rfl,
      fun _ => ?_⟩
    show Except.ok (Divecan.Msg.Diving status
        (Divecan.hi8 dn * 256 + Divecan.lo8 dn)
        (ts / 2 ^ 24 % 256 * 2 ^ 24 + ts / 2 ^ 16 % 256 * 2 ^ 16 +
          ts / 2 ^ 8 % 256 * 2 ^ 8 + ts % 256)) = _
    rw [Divecan.hi_lo dn h2, Did.be32_recombine ts h3]
  | Serial raw =>
    exact ⟨rfl, hwf, fun i h1 h2 => by
      have h1' : (8 : Nat) ≤ i := h1; omega, fun _ => rfl⟩

/-- Witness for C1 at a concrete tank-pressure message. -/
theorem c1_msg_frame_roundtrip_witness :
    (Divecan.Msg.TankPressure 1 4000).WF ∧
    Divecan.Msg.tryFromFrame
        (Divecan.Msg.toFrame (.TankPressure 1 4000)) =
      .ok (.TankPressure 1 4000) :=
  ⟨⟨by decide, by decide⟩,
    (c1_msg_frame_roundtrip (.TankPressure 1 4000)
      ⟨by decide, by decide⟩).2.2.2 trivial⟩

/-- Witness for C4 at the initial state. -/
theorem c4_reassembler_invariants_witness :
    (IsoTp.IsoTpRx.new.nextSn ≤ 15 ∧
      (IsoTp.IsoTpRx.new.state = .Receiving →
        ∃ L, IsoTp.IsoTpRx.new.expectedLen = some L ∧
          IsoTp.IsoTpRx.new.acc.length ≤ L)) ∧
    (∀ f n, (IsoTp.IsoTpRx.new.onFrame f).2 = .ok (.Completed n) →
      (IsoTp.IsoTpRx.new.onFrame f).1.state = .Idle) :=
  c4_reassembler_invariants IsoTp.IsoTpRx.new IsoTp.Reachable.new

end Candive
